import Mathlib

/-!
# Verification of the orbit camera controller (src/OrbitControls.js)

Shallow embedding of the orbit camera controller of `src/OrbitControls.js`
over the real numbers.  JS numbers are modelled as `ℝ` (the controller's
azimuth-limit fields, whose defaults are `±Infinity` and which the source
gates behind `isFinite`, are modelled as `EReal`).  The vector, quaternion
and spherical helpers are the three.js `Vector3` / `Quaternion` /
`Spherical` methods the controller calls, transcribed from the three.js
sources the repository imports (`import * as THREE from 'three'`).
DOM-only side effects (pointer capture, listener registration,
`preventDefault`) have no state in the model; listener registration for
`pointermove` is mirrored by gating move inputs on a non-empty pointer
registry, exactly the condition under which the source has the listener
attached.
-/

namespace OrbitCtl

open Real

open scoped Classical

noncomputable section

/-- A 2D vector (three.js `Vector2`): screen-space positions and deltas. -/
@[ext]
structure Vec2 where
  x : ℝ
  y : ℝ

/-- A 3D vector (three.js `Vector3`). -/
@[ext]
structure Vec3 where
  x : ℝ
  y : ℝ
  z : ℝ

/-- A quaternion (three.js `Quaternion`), components (x, y, z, w). -/
@[ext]
structure Quat where
  x : ℝ
  y : ℝ
  z : ℝ
  w : ℝ

/-- Spherical coordinates (three.js `Spherical`): radius, polar angle phi,
azimuthal angle theta. -/
@[ext]
structure Spherical where
  radius : ℝ
  phi : ℝ
  theta : ℝ

def add3 (a b : Vec3) : Vec3 := ⟨a.x + b.x, a.y + b.y, a.z + b.z⟩

def sub3 (a b : Vec3) : Vec3 := ⟨a.x - b.x, a.y - b.y, a.z - b.z⟩

def smul3 (k : ℝ) (v : Vec3) : Vec3 := ⟨k * v.x, k * v.y, k * v.z⟩

def dot3 (a b : Vec3) : ℝ := a.x * b.x + a.y * b.y + a.z * b.z

def cross3 (a b : Vec3) : Vec3 :=
  ⟨a.y * b.z - a.z * b.y, a.z * b.x - a.x * b.z, a.x * b.y - a.y * b.x⟩

def normSq3 (v : Vec3) : ℝ := v.x * v.x + v.y * v.y + v.z * v.z

def len3 (v : Vec3) : ℝ := Real.sqrt (normSq3 v)

/-- three.js `Vector3.distanceToSquared`. -/
def distSq3 (a b : Vec3) : ℝ := normSq3 (sub3 a b)

/-- three.js `Vector3.distanceTo`. -/
def dist3 (a b : Vec3) : ℝ := Real.sqrt (distSq3 a b)

/-- three.js `Vector3.normalize()`: `divideScalar(this.length() || 1)`. -/
def normalize3 (v : Vec3) : Vec3 :=
  let l := len3 v
  smul3 (1 / (if l = 0 then 1 else l)) v

/-- three.js `MathUtils.clamp(value, min, max) = Math.max(min, Math.min(max, value))`. -/
def clampR (value lo hi : ℝ) : ℝ := max lo (min hi value)

/-- three.js `Vector3.clampLength(min, max)`:
`divideScalar(length || 1).multiplyScalar(Math.max(min, Math.min(max, length)))`. -/
def clampLength (lo hi : ℝ) (v : Vec3) : Vec3 :=
  let l := len3 v
  smul3 (max lo (min hi l) / (if l = 0 then 1 else l)) v

def dotQ (a b : Quat) : ℝ := a.x * b.x + a.y * b.y + a.z * b.z + a.w * b.w

def normSqQ (q : Quat) : ℝ := q.x * q.x + q.y * q.y + q.z * q.z + q.w * q.w

def lenQ (q : Quat) : ℝ := Real.sqrt (normSqQ q)

/-- three.js `Quaternion.normalize()`: identity quaternion when the length is
zero, otherwise divide every component by the length. -/
def normalizeQ (q : Quat) : Quat :=
  let l := lenQ q
  if l = 0 then ⟨0, 0, 0, 1⟩ else ⟨q.x / l, q.y / l, q.z / l, q.w / l⟩

/-- three.js `Quaternion.invert()` (conjugation, for unit quaternions). -/
def conjQ (q : Quat) : Quat := ⟨-q.x, -q.y, -q.z, q.w⟩

/-- JS `Number.EPSILON` = 2⁻⁵². -/
def numberEpsilon : ℝ := 1 / 2 ^ 52

/-- three.js `Quaternion.setFromUnitVectors(vFrom, vTo)`. -/
def setFromUnitVectors (vFrom vTo : Vec3) : Quat :=
  let r := dot3 vFrom vTo + 1
  normalizeQ
    (if r < numberEpsilon then
      (if |vFrom.x| > |vFrom.z| then ⟨-vFrom.y, vFrom.x, 0, 0⟩
       else ⟨0, -vFrom.z, vFrom.y, 0⟩)
     else
      ⟨vFrom.y * vTo.z - vFrom.z * vTo.y,
       vFrom.z * vTo.x - vFrom.x * vTo.z,
       vFrom.x * vTo.y - vFrom.y * vTo.x, r⟩)

/-- three.js `Vector3.applyQuaternion(q)`:
`t = 2 · cross(q.xyz, v)`, result `v + q.w·t + cross(q.xyz, t)`. -/
def applyQuaternion (q : Quat) (v : Vec3) : Vec3 :=
  let tx := 2 * (q.y * v.z - q.z * v.y)
  let ty := 2 * (q.z * v.x - q.x * v.z)
  let tz := 2 * (q.x * v.y - q.y * v.x)
  ⟨v.x + q.w * tx + q.y * tz - q.z * ty,
   v.y + q.w * ty + q.z * tx - q.x * tz,
   v.z + q.w * tz + q.x * ty - q.y * tx⟩

/-- JS `Math.atan2(y, x)` on non-NaN inputs (signed zero ignored). -/
def atan2 (y x : ℝ) : ℝ :=
  if 0 < x then Real.arctan (y / x)
  else if x < 0 then
    (if 0 ≤ y then Real.arctan (y / x) + π else Real.arctan (y / x) - π)
  else if 0 < y then π / 2
  else if y < 0 then -(π / 2)
  else 0

/-- three.js `Spherical.setFromVector3` / `setFromCartesianCoords`. -/
def setFromVector3 (v : Vec3) : Spherical :=
  let radius := Real.sqrt (v.x * v.x + v.y * v.y + v.z * v.z)
  if radius = 0 then ⟨radius, 0, 0⟩
  else ⟨radius, Real.arccos (clampR (v.y / radius) (-1) 1), atan2 v.x v.z⟩

/-- three.js `Vector3.setFromSpherical` / `setFromSphericalCoords`. -/
def setFromSpherical (s : Spherical) : Vec3 :=
  let sinPhiRadius := Real.sin s.phi * s.radius
  ⟨sinPhiRadius * Real.sin s.theta, Real.cos s.phi * s.radius,
   sinPhiRadius * Real.cos s.theta⟩

/-- The `EPS` of three.js `Spherical.makeSafe()` (`0.000001`). -/
def sphericalEPS : ℝ := 1 / 1000000

/-- three.js `Spherical.makeSafe()`:
`phi = Math.max(EPS, Math.min(Math.PI - EPS, phi))`. -/
def makeSafe (phi : ℝ) : ℝ := max sphericalEPS (min (π - sphericalEPS) phi)

/-- A 3×3 rotation matrix given by its columns (the x, y, z axes); the
rotation part of the three.js `Matrix4` built by `Matrix4.lookAt`. -/
@[ext]
structure Mat3 where
  colX : Vec3
  colY : Vec3
  colZ : Vec3

/-- three.js `Matrix4.lookAt(eye, target, up)` (rotation part). -/
def lookAtMat (eye target up : Vec3) : Mat3 :=
  let z0 := sub3 eye target
  let z1 := if normSq3 z0 = 0 then { z0 with z := 1 } else z0
  let z2 := normalize3 z1
  let x0 := cross3 up z2
  let z3 :=
    if normSq3 x0 = 0 then
      normalize3 (if |up.z| = 1 then { z2 with x := z2.x + 1 / 10000 }
                  else { z2 with z := z2.z + 1 / 10000 })
    else z2
  let x1 := if normSq3 x0 = 0 then cross3 up z3 else x0
  let x2 := normalize3 x1
  let y0 := cross3 z3 x2
  ⟨x2, y0, z3⟩

/-- three.js `Quaternion.setFromRotationMatrix(m)` (trace-based branches). -/
def quatFromRotationMatrix (m : Mat3) : Quat :=
  let m11 := m.colX.x
  let m12 := m.colY.x
  let m13 := m.colZ.x
  let m21 := m.colX.y
  let m22 := m.colY.y
  let m23 := m.colZ.y
  let m31 := m.colX.z
  let m32 := m.colY.z
  let m33 := m.colZ.z
  let trace := m11 + m22 + m33
  if 0 < trace then
    let s := (1 / 2) / Real.sqrt (trace + 1)
    ⟨(m32 - m23) * s, (m13 - m31) * s, (m21 - m12) * s, (1 / 4) / s⟩
  else if m11 > m22 ∧ m11 > m33 then
    let s := 2 * Real.sqrt (1 + m11 - m22 - m33)
    ⟨(1 / 4) * s, (m12 + m21) / s, (m13 + m31) / s, (m32 - m23) / s⟩
  else if m22 > m33 then
    let s := 2 * Real.sqrt (1 + m22 - m11 - m33)
    ⟨(m12 + m21) / s, (1 / 4) * s, (m23 + m32) / s, (m13 - m31) / s⟩
  else
    let s := 2 * Real.sqrt (1 + m33 - m11 - m22)
    ⟨(m13 + m31) / s, (m23 + m32) / s, (1 / 4) * s, (m21 - m12) / s⟩

/-- three.js `Object3D.lookAt(target)` for a camera: the quaternion set from
`Matrix4.lookAt(position, target, up)`. -/
def lookAtQuat (eye target up : Vec3) : Quat :=
  quatFromRotationMatrix (lookAtMat eye target up)

/-- The gesture states of the controller's finite-state machine
(`STATE = { NONE: -1, ROTATE: 0, ... }`, lines 27–36). -/
inductive GestureState where
  | none
  | rotate
  | dolly
  | pan
  | touchRotate
  | touchPan
  | touchDollyPan
  | touchDollyRotate
deriving DecidableEq, Repr

/-- The notifications the controller dispatches: `'start'`, `'change'` and
(modelled as `stop`) `'end'`. -/
inductive Notif where
  | start
  | change
  | stop
deriving DecidableEq, Repr

/-- The touch actions (`THREE.TOUCH` values used by the `TOUCHES` table). -/
inductive TouchAction where
  | rotate
  | pan
  | dollyPan
  | dollyRotate
deriving DecidableEq, Repr

/-- The mouse actions (`THREE.MOUSE` values used by `MOUSE_BUTTONS`),
`mNone` standing for the source's `-1` fallthrough. -/
inductive MouseAction where
  | rotate
  | dolly
  | pan
  | mNone
deriving DecidableEq, Repr

/-- Key codes the controller recognises (`KEYS`, line 19); `other` stands
for every other `event.code`. -/
inductive KeyCode where
  | arrowUp
  | arrowDown
  | arrowLeft
  | arrowRight
  | other
deriving DecidableEq, Repr

/-- `TOUCHES.ONE = THREE.TOUCH.ROTATE` (line 21). -/
abbrev TOUCHES_ONE : TouchAction := TouchAction.rotate

/-- `TOUCHES.TWO = THREE.TOUCH.DOLLY_PAN` (line 21). -/
abbrev TOUCHES_TWO : TouchAction := TouchAction.dollyPan

/-- `EPS = 0.000001` (line 23). -/
def EPS : ℝ := 1 / 1000000

/-- `MIN_TARGET_HEIGHT = 0.1` (line 25). -/
def MIN_TARGET_HEIGHT : ℝ := 1 / 10

/-- `TWO_PI = 2 * Math.PI` (line 17). -/
def TWO_PI : ℝ := 2 * π

/-- The state of the external camera object the controller reads and
mutates.  `matrixCol0` / `matrixCol1` are the first two columns of
`camera.matrix`, which `pan` reads; the host render loop maintains the
matrix, the controller only reads it, so the model carries the columns as
plain state. -/
@[ext]
structure Camera where
  position : Vec3
  up : Vec3
  quaternion : Quat
  fov : ℝ
  matrixCol0 : Vec3
  matrixCol1 : Vec3

/-- The whole controller: configuration fields (`this.*`) and the
closure-captured interaction state of the constructor (lines 40–116).
`minAzimuthAngle` / `maxAzimuthAngle` default to `±Infinity` and are gated
behind `isFinite` in the source, so they are `EReal`; the other bounds are
modelled at finite (real) values.  `pointerPositions` maps a pointer id to
its last tracked position; `clientHeight` is `domElement.clientHeight`.
`enableDamping` is a field the host sets on the instance; no code path of
`src/OrbitControls.js` ever reads or writes it. -/
@[ext]
structure Controller where
  camera : Camera
  target : Vec3
  cursor : Vec3
  minDistance : ℝ
  maxDistance : ℝ
  minTargetRadius : ℝ
  maxTargetRadius : ℝ
  minPolarAngle : ℝ
  maxPolarAngle : ℝ
  minAzimuthAngle : EReal
  maxAzimuthAngle : EReal
  zoomSpeed : ℝ
  rotateSpeed : ℝ
  panSpeed : ℝ
  keyPanSpeed : ℝ
  enableDamping : Bool
  state : GestureState
  spherical : Spherical
  sphericalDelta : Spherical
  scale : ℝ
  panOffset : Vec3
  rotateStart : Vec2
  panStart : Vec2
  dollyStart : Vec2
  pointers : List Nat
  pointerPositions : Nat → Option Vec2
  controlActive : Bool
  clientHeight : ℝ

/-- `getPolarAngle` (line 81). -/
def getPolarAngle (c : Controller) : ℝ := c.spherical.phi

/-- `getAzimuthalAngle` (line 83). -/
def getAzimuthalAngle (c : Controller) : ℝ := c.spherical.theta

/-- `getDistance` (line 85): `camera.position.distanceTo(target)`. -/
def getDistance (c : Controller) : ℝ := dist3 c.camera.position c.target

/-- `clampDistance` (line 238). -/
def clampDistance (c : Controller) (dist : ℝ) : ℝ :=
  max c.minDistance (min c.maxDistance dist)

/-- JS `isFinite` on an extended real. -/
def isFiniteE (v : EReal) : Prop := v ≠ ⊤ ∧ v ≠ ⊥

/-- Normalisation of an azimuth bound into `(-π, π]`-ish range (lines
146–147): add or subtract `2π` when the bound lies beyond `±π`. -/
def wrapAzimuth (v : ℝ) : ℝ :=
  if v < -π then v + TWO_PI else if v > π then v - TWO_PI else v

/-- The azimuth clamp of `update` (lines 142–155): skipped unless both
bounds are finite; ordinary clamp when `min ≤ max` after normalisation;
otherwise the wraparound tie-break
`theta > (min+max)/2 ? Math.max(min, theta) : Math.min(max, theta)`. -/
def clampTheta (mnE mxE : EReal) (theta : ℝ) : ℝ :=
  if isFiniteE mnE ∧ isFiniteE mxE then
    let mn := wrapAzimuth mnE.toReal
    let mx := wrapAzimuth mxE.toReal
    if mn ≤ mx then max mn (min mx theta)
    else if theta > (mn + mx) / 2 then max mn theta else min mx theta
  else theta

/-- Step of `update` (line 121): the quaternion aligning `camera.up` with
`+Y`. -/
def updQuatAlign (c : Controller) : Quat := setFromUnitVectors c.camera.up ⟨0, 1, 0⟩

/-- Steps of `update` (lines 130–136): camera offset from the target,
rotated into y-up space, converted to spherical coordinates. -/
def updSphRaw (c : Controller) : Spherical :=
  setFromVector3 (applyQuaternion (updQuatAlign c) (sub3 c.camera.position c.target))

/-- Steps of `update` (lines 138, 141–155): add the pending azimuth delta,
then clamp theta. -/
def updTheta (c : Controller) : ℝ :=
  clampTheta c.minAzimuthAngle c.maxAzimuthAngle
    ((updSphRaw c).theta + c.sphericalDelta.theta)

/-- Steps of `update` (lines 139, 158, 160): add the pending polar delta,
clamp phi into `[minPolarAngle, maxPolarAngle]`, then `makeSafe`. -/
def updPhi (c : Controller) : ℝ :=
  makeSafe (max c.minPolarAngle
    (min c.maxPolarAngle ((updSphRaw c).phi + c.sphericalDelta.phi)))

/-- Steps of `update` (lines 163–168): pan the target, clamp its offset
from the cursor to `[minTargetRadius, maxTargetRadius]`. -/
def updTargetPrelim (c : Controller) : Vec3 :=
  add3 (clampLength c.minTargetRadius c.maxTargetRadius
    (sub3 (add3 c.target c.panOffset) c.cursor)) c.cursor

/-- Step of `update` (line 170): `target.y = Math.max(target.y, MIN_TARGET_HEIGHT)`. -/
def updTarget (c : Controller) : Vec3 :=
  ⟨(updTargetPrelim c).x, max (updTargetPrelim c).y MIN_TARGET_HEIGHT,
   (updTargetPrelim c).z⟩

/-- Step of `update` (line 173): `radius = clampDistance(radius * scale)`. -/
def updRadius (c : Controller) : ℝ := clampDistance c ((updSphRaw c).radius * c.scale)

/-- The new spherical state `update` leaves behind. -/
def updSpherical (c : Controller) : Spherical := ⟨updRadius c, updPhi c, updTheta c⟩

/-- Steps of `update` (lines 175–178): offset reconstructed from the new
spherical coordinates and rotated back out of y-up space. -/
def updOffset1 (c : Controller) : Vec3 :=
  applyQuaternion (conjQ (updQuatAlign c)) (setFromSpherical (updSpherical c))

/-- Step of `update` (line 180): `position = target + offset`. -/
def updPosition (c : Controller) : Vec3 := add3 (updTarget c) (updOffset1 c)

/-- The change condition of `update` (lines 192–195).  NOTE: `lastPosition`,
`lastQuaternion` and `lastTargetPosition` are local variables of `update`
in this source (lines 124–126), freshly zero- resp. identity-initialised
on every call, so the comparisons below are against the origin and the
identity quaternion, exactly as the source computes them. -/
def updChanged (c : Controller) : Prop :=
  (updSphRaw c).radius ≠ updRadius c ∨
    distSq3 ⟨0, 0, 0⟩ (updPosition c) > EPS ∨
    8 * (1 - dotQ ⟨0, 0, 0, 1⟩ (lookAtQuat (updPosition c) (updTarget c) c.camera.up)) > EPS ∨
    distSq3 ⟨0, 0, 0⟩ (updTarget c) > EPS

/-- `update` (lines 117–201), assembled from the step functions above in
source order: returns the new controller state and the notifications
dispatched (`[Notif.change]` when the change condition holds). -/
def update (c : Controller) : Controller × List Notif :=
  ({ c with
      camera := { c.camera with
        position := updPosition c,
        quaternion := lookAtQuat (updPosition c) (updTarget c) c.camera.up },
      target := updTarget c,
      spherical := updSpherical c,
      sphericalDelta := ⟨0, 0, 0⟩,
      panOffset := ⟨0, 0, 0⟩,
      scale := 1 },
   if updChanged c then [Notif.change] else [])

/-- `getZoomScale` (line 203): `Math.pow(0.95, zoomSpeed * Math.abs(delta * 0.01))`. -/
def getZoomScale (c : Controller) (delta : ℝ) : ℝ :=
  (0.95 : ℝ) ^ (c.zoomSpeed * |delta * 0.01|)

/-- `rotateLeft` (line 205): `sphericalDelta.theta -= angle`. -/
def rotateLeft (angle : ℝ) (c : Controller) : Controller :=
  { c with sphericalDelta :=
      { c.sphericalDelta with theta := c.sphericalDelta.theta - angle } }

/-- `rotateUp` (line 207): `sphericalDelta.phi -= angle`. -/
def rotateUp (angle : ℝ) (c : Controller) : Controller :=
  { c with sphericalDelta :=
      { c.sphericalDelta with phi := c.sphericalDelta.phi - angle } }

/-- `panLeft` (lines 209–214): add `-distance ·` (X column of the camera
matrix) to the pan offset. -/
def panLeft (distance : ℝ) (c : Controller) : Controller :=
  { c with panOffset := add3 c.panOffset (smul3 (-distance) c.camera.matrixCol0) }

/-- `panUp` (lines 216–221): add `distance ·` (Y column of the camera
matrix) to the pan offset. -/
def panUp (distance : ℝ) (c : Controller) : Controller :=
  { c with panOffset := add3 c.panOffset (smul3 distance c.camera.matrixCol1) }

/-- `pan` (lines 223–232): screen-space deltas to world-space pan, scaled
by the target distance and the vertical field of view, normalised by
`clientHeight`. -/
def pan (deltaX deltaY : ℝ) (c : Controller) : Controller :=
  let targetDistance :=
    len3 (sub3 c.camera.position c.target) * Real.tan ((c.camera.fov / 2) * π / 180)
  panUp (2 * deltaY * targetDistance / c.clientHeight)
    (panLeft (2 * deltaX * targetDistance / c.clientHeight) c)

/-- `dollyOut` (line 234): `scale /= dollyScale`. -/
def dollyOut (dollyScale : ℝ) (c : Controller) : Controller :=
  { c with scale := c.scale / dollyScale }

/-- `dollyIn` (line 236): `scale *= dollyScale`. -/
def dollyIn (dollyScale : ℝ) (c : Controller) : Controller :=
  { c with scale := c.scale * dollyScale }

/-- `handleMouseDownRotate` (line 244). -/
def handleMouseDownRotate (c : Controller) (x y : ℝ) : Controller :=
  { c with rotateStart := ⟨x, y⟩ }

/-- `handleMouseDownDolly` (line 246). -/
def handleMouseDownDolly (c : Controller) (x y : ℝ) : Controller :=
  { c with dollyStart := ⟨x, y⟩ }

/-- `handleMouseDownPan` (line 248). -/
def handleMouseDownPan (c : Controller) (x y : ℝ) : Controller :=
  { c with panStart := ⟨x, y⟩ }

/-- The state change of `handleMouseMoveRotate` (lines 250–257) before its
final `update()` call: accumulate the rotation deltas and move
`rotateStart`.  (`rotateEnd` and `rotateDelta` are written before every
read, so they are locals here.) -/
def rotateMoveAccum (c : Controller) (x y : ℝ) : Controller :=
  let rotateEnd : Vec2 := ⟨x, y⟩
  let rotateDelta : Vec2 :=
    ⟨(rotateEnd.x - c.rotateStart.x) * c.rotateSpeed,
     (rotateEnd.y - c.rotateStart.y) * c.rotateSpeed⟩
  { rotateUp (TWO_PI * rotateDelta.y / c.clientHeight)
      (rotateLeft (TWO_PI * rotateDelta.x / c.clientHeight) c) with
    rotateStart := rotateEnd }

/-- `handleMouseMoveRotate` (lines 250–257): accumulate, then `update()`. -/
def handleMouseMoveRotate (c : Controller) (x y : ℝ) : Controller × List Notif :=
  update (rotateMoveAccum c x y)

/-- The state change of `handleMouseMoveDolly` (lines 259–269) before its
final `update()` call. -/
def dollyMoveAccum (c : Controller) (x y : ℝ) : Controller :=
  let dollyEnd : Vec2 := ⟨x, y⟩
  let dy := dollyEnd.y - c.dollyStart.y
  let c1 :=
    if dy > 0 then dollyOut (getZoomScale c dy) c
    else if dy < 0 then dollyIn (getZoomScale c dy) c
    else c
  { c1 with dollyStart := dollyEnd }

/-- `handleMouseMoveDolly` (lines 259–269). -/
def handleMouseMoveDolly (c : Controller) (x y : ℝ) : Controller × List Notif :=
  update (dollyMoveAccum c x y)

/-- The state change of `handleMouseMovePan` (lines 271–277) before its
final `update()` call. -/
def panMoveAccum (c : Controller) (x y : ℝ) : Controller :=
  let panEnd : Vec2 := ⟨x, y⟩
  let panDelta : Vec2 :=
    ⟨(panEnd.x - c.panStart.x) * c.panSpeed, (panEnd.y - c.panStart.y) * c.panSpeed⟩
  { pan panDelta.x panDelta.y c with panStart := panEnd }

/-- `handleMouseMovePan` (lines 271–277). -/
def handleMouseMovePan (c : Controller) (x y : ℝ) : Controller × List Notif :=
  update (panMoveAccum c x y)

/-- The dolly applied by `handleMouseWheel` (lines 279–286) before its
final `update()` call: dolly in on negative `deltaY`, out on positive. -/
def wheelAccum (c : Controller) (deltaY : ℝ) : Controller :=
  if deltaY < 0 then dollyIn (getZoomScale c deltaY) c
  else if deltaY > 0 then dollyOut (getZoomScale c deltaY) c
  else c

/-- `handleMouseWheel` (lines 279–286). -/
def handleMouseWheel (c : Controller) (deltaY : ℝ) : Controller × List Notif :=
  update (wheelAccum c deltaY)

/-- `handleKeyDown` (lines 288–329): arrow keys pan (or rotate with shift
held); any recognised key ends in `update()`, other keys do nothing. -/
def handleKeyDown (c : Controller) (code : KeyCode) (shiftKey : Bool) :
    Controller × List Notif :=
  match code with
  | KeyCode.arrowUp =>
      update (if shiftKey then rotateUp (TWO_PI * c.rotateSpeed / c.clientHeight) c
              else pan 0 c.keyPanSpeed c)
  | KeyCode.arrowDown =>
      update (if shiftKey then rotateUp (-(TWO_PI * c.rotateSpeed / c.clientHeight)) c
              else pan 0 (-c.keyPanSpeed) c)
  | KeyCode.arrowLeft =>
      update (if shiftKey then rotateLeft (TWO_PI * c.rotateSpeed / c.clientHeight) c
              else pan c.keyPanSpeed 0 c)
  | KeyCode.arrowRight =>
      update (if shiftKey then rotateLeft (-(TWO_PI * c.rotateSpeed / c.clientHeight)) c
              else pan (-c.keyPanSpeed) 0 c)
  | KeyCode.other => (c, [])

/-- `getSecondPointerPosition` (lines 644–647): the tracked position of
the other pointer of a two-pointer gesture.  (The source dereferences an
`undefined` entry if fewer than two pointers are tracked; the model
returns the origin there, a state the source never reaches.) -/
def getSecondPointerPosition (c : Controller) (pid : Nat) : Vec2 :=
  let otherId := if c.pointers.get? 0 = some pid then c.pointers.get? 1 else c.pointers.get? 0
  (otherId.bind c.pointerPositions).getD ⟨0, 0⟩

/-- The contact separation of `handleTouchStartDolly` / `handleTouchMoveDolly`:
`Math.sqrt(dx*dx + dy*dy)` against the second pointer's position `p`. -/
def touchSep (p : Vec2) (x y : ℝ) : ℝ :=
  Real.sqrt ((x - p.x) * (x - p.x) + (y - p.y) * (y - p.y))

/-- `handleTouchStartRotate` (lines 331–340): anchor at the single contact,
or at the midpoint of the two contacts. -/
def handleTouchStartRotate (c : Controller) (pid : Nat) (x y : ℝ) : Controller :=
  if c.pointers.length = 1 then { c with rotateStart := ⟨x, y⟩ }
  else
    let p := getSecondPointerPosition c pid
    { c with rotateStart := ⟨(1 / 2) * (x + p.x), (1 / 2) * (y + p.y)⟩ }

/-- `handleTouchStartPan` (lines 342–351). -/
def handleTouchStartPan (c : Controller) (pid : Nat) (x y : ℝ) : Controller :=
  if c.pointers.length = 1 then { c with panStart := ⟨x, y⟩ }
  else
    let p := getSecondPointerPosition c pid
    { c with panStart := ⟨(1 / 2) * (x + p.x), (1 / 2) * (y + p.y)⟩ }

/-- `handleTouchStartDolly` (lines 353–359): record the initial contact
separation in `dollyStart.y`. -/
def handleTouchStartDolly (c : Controller) (pid : Nat) (x y : ℝ) : Controller :=
  { c with dollyStart := ⟨0, touchSep (getSecondPointerPosition c pid) x y⟩ }

/-- `handleTouchStartDollyPan` (lines 361–364). -/
def handleTouchStartDollyPan (c : Controller) (pid : Nat) (x y : ℝ) : Controller :=
  handleTouchStartPan (handleTouchStartDolly c pid x y) pid x y

/-- `handleTouchStartDollyRotate` (lines 366–369). -/
def handleTouchStartDollyRotate (c : Controller) (pid : Nat) (x y : ℝ) : Controller :=
  handleTouchStartRotate (handleTouchStartDolly c pid x y) pid x y

/-- `handleTouchMoveRotate` (lines 371–385). -/
def handleTouchMoveRotate (c : Controller) (pid : Nat) (x y : ℝ) : Controller :=
  let rotateEnd : Vec2 :=
    if c.pointers.length = 1 then ⟨x, y⟩
    else
      let p := getSecondPointerPosition c pid
      ⟨(1 / 2) * (x + p.x), (1 / 2) * (y + p.y)⟩
  let rotateDelta : Vec2 :=
    ⟨(rotateEnd.x - c.rotateStart.x) * c.rotateSpeed,
     (rotateEnd.y - c.rotateStart.y) * c.rotateSpeed⟩
  { rotateUp (TWO_PI * rotateDelta.y / c.clientHeight)
      (rotateLeft (TWO_PI * rotateDelta.x / c.clientHeight) c) with
    rotateStart := rotateEnd }

/-- `handleTouchMovePan` (lines 387–399). -/
def handleTouchMovePan (c : Controller) (pid : Nat) (x y : ℝ) : Controller :=
  let panEnd : Vec2 :=
    if c.pointers.length = 1 then ⟨x, y⟩
    else
      let p := getSecondPointerPosition c pid
      ⟨(1 / 2) * (x + p.x), (1 / 2) * (y + p.y)⟩
  let panDelta : Vec2 :=
    ⟨(panEnd.x - c.panStart.x) * c.panSpeed, (panEnd.y - c.panStart.y) * c.panSpeed⟩
  { pan panDelta.x panDelta.y c with panStart := panEnd }

/-- `handleTouchMoveDolly` (lines 401–410): one `dollyOut` by
`(newSeparation / dollyStart.y) ^ zoomSpeed`, then move `dollyStart`. -/
def handleTouchMoveDolly (c : Controller) (pid : Nat) (x y : ℝ) : Controller :=
  let distance := touchSep (getSecondPointerPosition c pid) x y
  let dollyEnd : Vec2 := ⟨0, distance⟩
  let dollyDelta : Vec2 := ⟨0, (dollyEnd.y / c.dollyStart.y) ^ c.zoomSpeed⟩
  { dollyOut dollyDelta.y c with dollyStart := dollyEnd }

/-- `handleTouchMoveDollyPan` (lines 412–415). -/
def handleTouchMoveDollyPan (c : Controller) (pid : Nat) (x y : ℝ) : Controller :=
  handleTouchMovePan (handleTouchMoveDolly c pid x y) pid x y

/-- `handleTouchMoveDollyRotate` (lines 417–420). -/
def handleTouchMoveDollyRotate (c : Controller) (pid : Nat) (x y : ℝ) : Controller :=
  handleTouchMoveRotate (handleTouchMoveDolly c pid x y) pid x y

/-- `addPointer` (line 621). -/
def addPointer (c : Controller) (pid : Nat) : Controller :=
  { c with pointers := c.pointers ++ [pid] }

/-- `removePointer` (lines 623–631): drop the tracked position and splice
the first matching id out of the pointer list. -/
def removePointer (c : Controller) (pid : Nat) : Controller :=
  { c with
    pointerPositions := fun k => if k = pid then none else c.pointerPositions k,
    pointers := c.pointers.erase pid }

/-- `isTrackingPointer` (line 633). -/
def isTrackingPointer (c : Controller) (pid : Nat) : Prop := pid ∈ c.pointers

/-- `trackPointer` (lines 635–642). -/
def trackPointer (c : Controller) (pid : Nat) (x y : ℝ) : Controller :=
  { c with
    pointerPositions := fun k => if k = pid then some ⟨x, y⟩ else c.pointerPositions k }

/-- `onMouseDown` (lines 468–512): map the button to an action, set the
gesture state and anchor, dispatch `'start'` unless no gesture began. -/
def onMouseDown (c : Controller) (x y : ℝ) (button : Nat) (shiftKey : Bool) :
    Controller × List Notif :=
  let mouseAction : MouseAction :=
    match button with
    | 0 => MouseAction.rotate
    | 1 => MouseAction.dolly
    | 2 => MouseAction.pan
    | _ => MouseAction.mNone
  let c1 :=
    match mouseAction with
    | MouseAction.dolly =>
        { handleMouseDownDolly c x y with state := GestureState.dolly }
    | MouseAction.rotate =>
        if shiftKey then { handleMouseDownPan c x y with state := GestureState.pan }
        else { handleMouseDownRotate c x y with state := GestureState.rotate }
    | MouseAction.pan =>
        if shiftKey then { handleMouseDownRotate c x y with state := GestureState.rotate }
        else { handleMouseDownPan c x y with state := GestureState.pan }
    | MouseAction.mNone => { c with state := GestureState.none }
  (c1, if c1.state ≠ GestureState.none then [Notif.start] else [])

/-- `onMouseMove` (lines 514–526). -/
def onMouseMove (c : Controller) (x y : ℝ) : Controller × List Notif :=
  match c.state with
  | GestureState.rotate => handleMouseMoveRotate c x y
  | GestureState.dolly => handleMouseMoveDolly c x y
  | GestureState.pan => handleMouseMovePan c x y
  | _ => (c, [])

/-- `onMouseWheel` (lines 528–552): ignored unless no gesture is active;
otherwise dispatch `'start'`, normalise `deltaY` (×16 line mode, ×100 page
mode, ×10 for a ctrl-modified wheel while `controlActive` is unset), run
`handleMouseWheel`, dispatch `'end'`. -/
def onMouseWheel (c : Controller) (deltaY : ℝ) (deltaMode : Nat) (ctrlKey : Bool) :
    Controller × List Notif :=
  if c.state ≠ GestureState.none then (c, [])
  else
    let d1 :=
      match deltaMode with
      | 1 => deltaY * 16
      | 2 => deltaY * 100
      | _ => deltaY
    let d2 := if ctrlKey && !c.controlActive then d1 * 10 else d1
    let r := handleMouseWheel c d2
    (r.1, Notif.start :: (r.2 ++ [Notif.stop]))

/-- `onTouchStart` (lines 556–593): track the pointer, derive the gesture
from the number of active contacts and the `TOUCHES` table, dispatch
`'start'` unless no gesture began. -/
def onTouchStart (c : Controller) (pid : Nat) (x y : ℝ) : Controller × List Notif :=
  let c0 := trackPointer c pid x y
  let c1 :=
    match c0.pointers.length with
    | 1 =>
        (match TOUCHES_ONE with
         | TouchAction.rotate =>
             { handleTouchStartRotate c0 pid x y with state := GestureState.touchRotate }
         | TouchAction.pan =>
             { handleTouchStartPan c0 pid x y with state := GestureState.touchPan }
         | _ => { c0 with state := GestureState.none })
    | 2 =>
        (match TOUCHES_TWO with
         | TouchAction.dollyPan =>
             { handleTouchStartDollyPan c0 pid x y with state := GestureState.touchDollyPan }
         | TouchAction.dollyRotate =>
             { handleTouchStartDollyRotate c0 pid x y with
               state := GestureState.touchDollyRotate }
         | _ => { c0 with state := GestureState.none })
    | _ => { c0 with state := GestureState.none }
  (c1, if c1.state ≠ GestureState.none then [Notif.start] else [])

/-- `onTouchMove` (lines 595–617): track the pointer, run the active touch
gesture's handler followed by `update()`; any other state is reset to
`NONE`. -/
def onTouchMove (c : Controller) (pid : Nat) (x y : ℝ) : Controller × List Notif :=
  let c0 := trackPointer c pid x y
  match c0.state with
  | GestureState.touchRotate => update (handleTouchMoveRotate c0 pid x y)
  | GestureState.touchPan => update (handleTouchMovePan c0 pid x y)
  | GestureState.touchDollyPan => update (handleTouchMoveDollyPan c0 pid x y)
  | GestureState.touchDollyRotate => update (handleTouchMoveDollyRotate c0 pid x y)
  | _ => ({ c0 with state := GestureState.none }, [])

/-- `onPointerDown` (lines 426–439): ignore an already-tracked pointer,
else register it and route to the touch or mouse down handler. -/
def onPointerDown (c : Controller) (pid : Nat) (isTouch : Bool) (x y : ℝ)
    (button : Nat) (shiftKey : Bool) : Controller × List Notif :=
  if isTrackingPointer c pid then (c, [])
  else
    let c1 := addPointer c pid
    if isTouch then onTouchStart c1 pid x y else onMouseDown c1 x y button shiftKey

/-- `onPointerMove` (lines 441–447). -/
def onPointerMove (c : Controller) (pid : Nat) (isTouch : Bool) (x y : ℝ) :
    Controller × List Notif :=
  if isTouch then onTouchMove c pid x y else onMouseMove c x y

/-- `onPointerUp` (lines 449–466): remove the pointer; when none remain,
dispatch `'end'` and reset the state machine; when exactly one remains,
re-derive the single-touch gesture from that pointer's last known position
through a placeholder `onTouchStart`. -/
def onPointerUp (c : Controller) (pid : Nat) : Controller × List Notif :=
  let c1 := removePointer c pid
  match c1.pointers.length with
  | 0 => ({ c1 with state := GestureState.none }, [Notif.stop])
  | 1 =>
      let remainingId := c1.pointers.headD 0
      let p := (c1.pointerPositions remainingId).getD ⟨0, 0⟩
      onTouchStart c1 remainingId p.x p.y
  | _ => (c1, [])

/-- One raw input event as the host delivers it.  Pointer events carry one
screen position standing for both `clientX/Y` and `pageX/Y`. -/
inductive Input where
  | pointerDown (pid : Nat) (isTouch : Bool) (x y : ℝ) (button : Nat) (shiftKey : Bool)
  | pointerMove (pid : Nat) (isTouch : Bool) (x y : ℝ)
  | pointerUp (pid : Nat)
  | wheel (deltaY : ℝ) (deltaMode : Nat) (ctrlKey : Bool)
  | keyDown (code : KeyCode) (shiftKey : Bool)

/-- Deliver one input to the controller.  `pointermove` is only delivered
while the registry is non-empty, mirroring the source's listener
registration (added on the first pointer-down, removed when the last
pointer lifts); `pointerUp` also covers the always-registered
`pointercancel` path. -/
def applyInput (i : Input) (c : Controller) : Controller × List Notif :=
  match i with
  | Input.pointerDown pid isTouch x y button shiftKey =>
      onPointerDown c pid isTouch x y button shiftKey
  | Input.pointerMove pid isTouch x y =>
      if c.pointers = [] then (c, []) else onPointerMove c pid isTouch x y
  | Input.pointerUp pid => onPointerUp c pid
  | Input.wheel deltaY deltaMode ctrlKey => onMouseWheel c deltaY deltaMode ctrlKey
  | Input.keyDown code shiftKey => handleKeyDown c code shiftKey

/-- Fold a list of inputs over the controller, keeping only the state. -/
def runInputs (l : List Input) (c : Controller) : Controller :=
  l.foldl (fun s i => (applyInput i s).1) c

/-! ## Geometric facts about the embedded three.js helpers -/

lemma normSq3_nonneg (v : Vec3) : 0 ≤ normSq3 v := by
  unfold normSq3
  nlinarith [mul_self_nonneg v.x, mul_self_nonneg v.y, mul_self_nonneg v.z]

lemma normSqQ_nonneg (q : Quat) : 0 ≤ normSqQ q := by
  unfold normSqQ
  nlinarith [mul_self_nonneg q.x, mul_self_nonneg q.y, mul_self_nonneg q.z,
    mul_self_nonneg q.w]

lemma lenQ_eq_zero_iff (q : Quat) : lenQ q = 0 ↔ normSqQ q = 0 := by
  unfold lenQ
  exact Real.sqrt_eq_zero (normSqQ_nonneg q)

/-- A normalised quaternion is a unit quaternion (the zero-length branch of
`Quaternion.normalize` returns the identity). -/
lemma normalizeQ_normSq (q : Quat) : normSqQ (normalizeQ q) = 1 := by
  unfold normalizeQ
  by_cases h : lenQ q = 0
  · simp only [h, if_pos rfl, if_true]
    norm_num [normSqQ]
  · simp only [h, if_false]
    have hsq : lenQ q * lenQ q = normSqQ q := Real.mul_self_sqrt (normSqQ_nonneg q)
    have hne : normSqQ q ≠ 0 := fun h0 => h ((lenQ_eq_zero_iff q).mpr h0)
    unfold normSqQ at hsq hne ⊢
    field_simp
    linarith [hsq]

/-- The quaternion `setFromUnitVectors` builds is always a unit quaternion. -/
lemma setFromUnitVectors_normSq (a b : Vec3) : normSqQ (setFromUnitVectors a b) = 1 :=
  normalizeQ_normSq _

lemma conjQ_normSq (q : Quat) : normSqQ (conjQ q) = normSqQ q := by
  unfold conjQ normSqQ
  ring

/-- Rotation by a unit quaternion preserves the squared norm. -/
lemma applyQuaternion_normSq (q : Quat) (v : Vec3) (h : normSqQ q = 1) :
    normSq3 (applyQuaternion q v) = normSq3 v := by
  obtain ⟨qx, qy, qz, qw⟩ := q
  obtain ⟨vx, vy, vz⟩ := v
  unfold normSqQ at h
  unfold applyQuaternion normSq3
  dsimp only
  linear_combination
    (-(2 * (qw ^ 2 - (qx ^ 2 + qy ^ 2 + qz ^ 2)) * (vx ^ 2 + vy ^ 2 + vz ^ 2) +
        4 * (qx * vx + qy * vy + qz * vz) ^ 2 -
        2 * (qx ^ 2 + qy ^ 2 + qz ^ 2 + qw ^ 2) * (vx ^ 2 + vy ^ 2 + vz ^ 2))) * h

/-- The vector rebuilt from spherical coordinates has squared norm
`radius²`. -/
lemma setFromSpherical_normSq (s : Spherical) :
    normSq3 (setFromSpherical s) = s.radius * s.radius := by
  unfold setFromSpherical normSq3
  dsimp only
  linear_combination
    (Real.sin s.phi * Real.sin s.phi * (s.radius * s.radius)) *
        Real.sin_sq_add_cos_sq s.theta +
      (s.radius * s.radius) * Real.sin_sq_add_cos_sq s.phi

lemma sub3_add3 (a b : Vec3) : sub3 (add3 a b) a = b := by
  unfold sub3 add3
  ext <;> dsimp <;> ring

/-! ## What one `update` call guarantees -/

/-- After `update`, the camera-to-target distance is the absolute value of
the clamped radius. -/
lemma update_getDistance (c : Controller) :
    getDistance ((update c).1) = |updRadius c| := by
  have h1 : normSqQ (conjQ (updQuatAlign c)) = 1 := by
    rw [conjQ_normSq]; exact setFromUnitVectors_normSq _ _
  have : getDistance ((update c).1) = dist3 (updPosition c) (updTarget c) := rfl
  rw [this]
  unfold dist3 distSq3 updPosition
  rw [sub3_add3]
  unfold updOffset1
  rw [applyQuaternion_normSq _ _ h1, setFromSpherical_normSq]
  have : (updSpherical c).radius = updRadius c := rfl
  rw [this, ← Real.sqrt_sq_eq_abs, sq]

/-- After `update`, the distance respects a well-formed non-negative
distance interval. -/
lemma update_dist_bounds (c : Controller) (h0 : 0 ≤ c.minDistance)
    (h1 : c.minDistance ≤ c.maxDistance) :
    c.minDistance ≤ getDistance ((update c).1) ∧
      getDistance ((update c).1) ≤ c.maxDistance := by
  rw [update_getDistance]
  have hr0 : 0 ≤ updRadius c := le_trans h0 (le_max_left _ _)
  rw [abs_of_nonneg hr0]
  refine ⟨le_max_left _ _, ?_⟩
  exact max_le h1 (le_trans (min_le_left _ _) le_rfl)

/-- After `update`, the target height is at least `MIN_TARGET_HEIGHT`. -/
lemma update_target_y (c : Controller) :
    MIN_TARGET_HEIGHT ≤ ((update c).1).target.y :=
  le_max_right _ _

/-- After `update`, the polar angle lies in the configured interval
whenever that interval sits inside the `makeSafe` margins. -/
lemma update_phi_bounds (c : Controller) (h1 : sphericalEPS ≤ c.minPolarAngle)
    (h2 : c.minPolarAngle ≤ c.maxPolarAngle)
    (h3 : c.maxPolarAngle ≤ π - sphericalEPS) :
    c.minPolarAngle ≤ getPolarAngle ((update c).1) ∧
      getPolarAngle ((update c).1) ≤ c.maxPolarAngle := by
  have hphi : getPolarAngle ((update c).1) = updPhi c := rfl
  rw [hphi]
  unfold updPhi makeSafe
  set z := max c.minPolarAngle
    (min c.maxPolarAngle ((updSphRaw c).phi + c.sphericalDelta.phi)) with hz
  have hzlo : c.minPolarAngle ≤ z := le_max_left _ _
  have hzhi : z ≤ c.maxPolarAngle := max_le h2 (min_le_left _ _)
  have hmin : min (π - sphericalEPS) z = z :=
    min_eq_right (le_trans hzhi h3)
  rw [hmin]
  have hmax : max sphericalEPS z = z :=
    max_eq_right (le_trans h1 hzlo)
  rw [hmax]
  exact ⟨hzlo, hzhi⟩

/-! ## Which state every input can touch

`core` projects the state that the distance / polar-angle invariants are
about: camera position, target, spherical state and the distance/polar
configuration.  Every input handler either leaves `core` unchanged or ends
in a call to `update` on a state with the same configuration. -/

/-- The invariant-relevant projection of the controller state. -/
def core (c : Controller) : Vec3 × Vec3 × Spherical × ℝ × ℝ × ℝ × ℝ :=
  (c.camera.position, c.target, c.spherical,
   c.minDistance, c.maxDistance, c.minPolarAngle, c.maxPolarAngle)

lemma core_trackPointer (c : Controller) (pid : Nat) (x y : ℝ) :
    core (trackPointer c pid x y) = core c := rfl

lemma core_addPointer (c : Controller) (pid : Nat) :
    core (addPointer c pid) = core c := rfl

lemma core_removePointer (c : Controller) (pid : Nat) :
    core (removePointer c pid) = core c := rfl

lemma core_rotateMoveAccum (c : Controller) (x y : ℝ) :
    core (rotateMoveAccum c x y) = core c := rfl

lemma core_dollyMoveAccum (c : Controller) (x y : ℝ) :
    core (dollyMoveAccum c x y) = core c := by
  unfold dollyMoveAccum
  dsimp only
  split <;> [rfl; split <;> rfl]

lemma core_panMoveAccum (c : Controller) (x y : ℝ) :
    core (panMoveAccum c x y) = core c := rfl

lemma core_wheelAccum (c : Controller) (d : ℝ) :
    core (wheelAccum c d) = core c := by
  unfold wheelAccum
  split <;> [rfl; split <;> rfl]

lemma core_handleTouchStartRotate (c : Controller) (pid : Nat) (x y : ℝ) :
    core (handleTouchStartRotate c pid x y) = core c := by
  unfold handleTouchStartRotate
  split <;> rfl

lemma core_handleTouchStartPan (c : Controller) (pid : Nat) (x y : ℝ) :
    core (handleTouchStartPan c pid x y) = core c := by
  unfold handleTouchStartPan
  split <;> rfl

lemma core_handleTouchStartDolly (c : Controller) (pid : Nat) (x y : ℝ) :
    core (handleTouchStartDolly c pid x y) = core c := rfl

lemma core_handleTouchStartDollyPan (c : Controller) (pid : Nat) (x y : ℝ) :
    core (handleTouchStartDollyPan c pid x y) = core c := by
  unfold handleTouchStartDollyPan
  rw [core_handleTouchStartPan, core_handleTouchStartDolly]

lemma core_handleTouchStartDollyRotate (c : Controller) (pid : Nat) (x y : ℝ) :
    core (handleTouchStartDollyRotate c pid x y) = core c := by
  unfold handleTouchStartDollyRotate
  rw [core_handleTouchStartRotate, core_handleTouchStartDolly]

lemma core_handleTouchMoveRotate (c : Controller) (pid : Nat) (x y : ℝ) :
    core (handleTouchMoveRotate c pid x y) = core c := rfl

lemma core_handleTouchMovePan (c : Controller) (pid : Nat) (x y : ℝ) :
    core (handleTouchMovePan c pid x y) = core c := rfl

lemma core_handleTouchMoveDolly (c : Controller) (pid : Nat) (x y : ℝ) :
    core (handleTouchMoveDolly c pid x y) = core c := rfl

lemma core_handleTouchMoveDollyPan (c : Controller) (pid : Nat) (x y : ℝ) :
    core (handleTouchMoveDollyPan c pid x y) = core c := by
  unfold handleTouchMoveDollyPan
  rw [core_handleTouchMovePan, core_handleTouchMoveDolly]

lemma core_handleTouchMoveDollyRotate (c : Controller) (pid : Nat) (x y : ℝ) :
    core (handleTouchMoveDollyRotate c pid x y) = core c := by
  unfold handleTouchMoveDollyRotate
  rw [core_handleTouchMoveRotate, core_handleTouchMoveDolly]

lemma core_setState (c : Controller) (s : GestureState) :
    core { c with state := s } = core c := rfl

lemma core_onTouchStart (c : Controller) (pid : Nat) (x y : ℝ) :
    core (onTouchStart c pid x y).1 = core c := by
  unfold onTouchStart
  dsimp only [TOUCHES_ONE, TOUCHES_TWO]
  split
  · rw [core_setState, core_handleTouchStartRotate, core_trackPointer]
  · rw [core_setState, core_handleTouchStartDollyPan, core_trackPointer]
  · rw [core_setState, core_trackPointer]

lemma core_onMouseDown (c : Controller) (x y : ℝ) (button : Nat) (sk : Bool) :
    core (onMouseDown c x y button sk).1 = core c := by
  cases sk <;> rcases button with _ | _ | _ | b <;>
    simp [onMouseDown, core, handleMouseDownDolly, handleMouseDownRotate,
      handleMouseDownPan]

lemma core_onPointerDown (c : Controller) (pid : Nat) (t : Bool) (x y : ℝ)
    (button : Nat) (sk : Bool) :
    core (onPointerDown c pid t x y button sk).1 = core c := by
  unfold onPointerDown
  split
  · rfl
  · split
    · rw [core_onTouchStart, core_addPointer]
    · rw [core_onMouseDown, core_addPointer]

lemma core_onPointerUp (c : Controller) (pid : Nat) :
    core (onPointerUp c pid).1 = core c := by
  unfold onPointerUp
  dsimp only
  split
  · rw [core_setState, core_removePointer]
  · rw [core_onTouchStart, core_removePointer]
  · exact core_removePointer c pid

/-- Every input either leaves the invariant-relevant state unchanged or
hands a state with unchanged configuration to `update`. -/
lemma applyInput_shape (i : Input) (c : Controller) :
    core ((applyInput i c).1) = core c ∨
      ∃ c', core c' = core c ∧ (applyInput i c).1 = (update c').1 := by
  cases i with
  | pointerDown pid t x y button sk =>
      exact Or.inl (core_onPointerDown c pid t x y button sk)
  | pointerMove pid t x y =>
      have hred : applyInput (Input.pointerMove pid t x y) c =
          if c.pointers = [] then (c, []) else onPointerMove c pid t x y := rfl
      rw [hred]
      by_cases hp : c.pointers = []
      · rw [if_pos hp]
        exact Or.inl rfl
      · rw [if_neg hp]
        cases t with
        | false =>
            have hm : onPointerMove c pid false x y = onMouseMove c x y := rfl
            rw [hm]
            unfold onMouseMove
            split
            · exact Or.inr ⟨rotateMoveAccum c x y, core_rotateMoveAccum c x y, rfl⟩
            · exact Or.inr ⟨dollyMoveAccum c x y, core_dollyMoveAccum c x y, rfl⟩
            · exact Or.inr ⟨panMoveAccum c x y, core_panMoveAccum c x y, rfl⟩
            · exact Or.inl rfl
        | true =>
            have hm : onPointerMove c pid true x y = onTouchMove c pid x y := rfl
            rw [hm]
            unfold onTouchMove
            dsimp only
            split
            · exact Or.inr ⟨_, by
                rw [core_handleTouchMoveRotate, core_trackPointer], rfl⟩
            · exact Or.inr ⟨_, by
                rw [core_handleTouchMovePan, core_trackPointer], rfl⟩
            · exact Or.inr ⟨_, by
                rw [core_handleTouchMoveDollyPan, core_trackPointer], rfl⟩
            · exact Or.inr ⟨_, by
                rw [core_handleTouchMoveDollyRotate, core_trackPointer], rfl⟩
            · exact Or.inl (by rw [core_setState, core_trackPointer])
  | pointerUp pid => exact Or.inl (core_onPointerUp c pid)
  | wheel dY mode ctrl =>
      have hred : applyInput (Input.wheel dY mode ctrl) c =
          onMouseWheel c dY mode ctrl := rfl
      rw [hred]
      unfold onMouseWheel
      split
      · exact Or.inl rfl
      · exact Or.inr ⟨_, core_wheelAccum c _, rfl⟩
  | keyDown code sk =>
      have hred : applyInput (Input.keyDown code sk) c = handleKeyDown c code sk := rfl
      rw [hred]
      cases code with
      | arrowUp =>
          cases sk with
          | false => exact Or.inr ⟨pan 0 c.keyPanSpeed c, rfl, rfl⟩
          | true =>
              exact Or.inr ⟨rotateUp (TWO_PI * c.rotateSpeed / c.clientHeight) c, rfl, rfl⟩
      | arrowDown =>
          cases sk with
          | false => exact Or.inr ⟨pan 0 (-c.keyPanSpeed) c, rfl, rfl⟩
          | true =>
              exact Or.inr
                ⟨rotateUp (-(TWO_PI * c.rotateSpeed / c.clientHeight)) c, rfl, rfl⟩
      | arrowLeft =>
          cases sk with
          | false => exact Or.inr ⟨pan c.keyPanSpeed 0 c, rfl, rfl⟩
          | true =>
              exact Or.inr ⟨rotateLeft (TWO_PI * c.rotateSpeed / c.clientHeight) c, rfl, rfl⟩
      | arrowRight =>
          cases sk with
          | false => exact Or.inr ⟨pan (-c.keyPanSpeed) 0 c, rfl, rfl⟩
          | true =>
              exact Or.inr
                ⟨rotateLeft (-(TWO_PI * c.rotateSpeed / c.clientHeight)) c, rfl, rfl⟩
      | other => exact Or.inl rfl

lemma core_fields (c' c : Controller) (h : core c' = core c) :
    c'.camera.position = c.camera.position ∧ c'.target = c.target ∧
      c'.spherical = c.spherical ∧ c'.minDistance = c.minDistance ∧
      c'.maxDistance = c.maxDistance ∧ c'.minPolarAngle = c.minPolarAngle ∧
      c'.maxPolarAngle = c.maxPolarAngle := by
  unfold core at h
  simp only [Prod.mk.injEq] at h
  tauto

/-- No input handler changes the distance or polar-angle configuration. -/
lemma applyInput_config (i : Input) (c : Controller) :
    ((applyInput i c).1).minDistance = c.minDistance ∧
      ((applyInput i c).1).maxDistance = c.maxDistance ∧
      ((applyInput i c).1).minPolarAngle = c.minPolarAngle ∧
      ((applyInput i c).1).maxPolarAngle = c.maxPolarAngle := by
  rcases applyInput_shape i c with hc | ⟨c', hcore, heq⟩
  · obtain ⟨_, _, _, h4, h5, h6, h7⟩ := core_fields _ _ hc
    exact ⟨h4, h5, h6, h7⟩
  · obtain ⟨_, _, _, h4, h5, h6, h7⟩ := core_fields _ _ hcore
    rw [heq]
    exact ⟨h4, h5, h6, h7⟩

/-- One input preserves the distance invariant (for a well-formed
non-negative distance interval). -/
lemma applyInput_dist (i : Input) (c : Controller)
    (h0 : 0 ≤ c.minDistance) (h1 : c.minDistance ≤ c.maxDistance)
    (h4 : c.minDistance ≤ getDistance c) (h5 : getDistance c ≤ c.maxDistance) :
    c.minDistance ≤ getDistance ((applyInput i c).1) ∧
      getDistance ((applyInput i c).1) ≤ c.maxDistance := by
  rcases applyInput_shape i c with hc | ⟨c', hcore, heq⟩
  · obtain ⟨hp, ht, _, _⟩ := core_fields _ _ hc
    unfold getDistance at h4 h5 ⊢
    rw [hp, ht]
    exact ⟨h4, h5⟩
  · obtain ⟨_, _, _, hmin, hmax, _, _⟩ := core_fields _ _ hcore
    rw [heq]
    have := update_dist_bounds c' (by rw [hmin]; exact h0) (by rw [hmin, hmax]; exact h1)
    rwa [hmin, hmax] at this

/-- One input preserves the polar-angle invariant (for an interval inside
the `makeSafe` margins). -/
lemma applyInput_phi (i : Input) (c : Controller)
    (h1 : sphericalEPS ≤ c.minPolarAngle) (h2 : c.minPolarAngle ≤ c.maxPolarAngle)
    (h3 : c.maxPolarAngle ≤ π - sphericalEPS)
    (h4 : c.minPolarAngle ≤ getPolarAngle c) (h5 : getPolarAngle c ≤ c.maxPolarAngle) :
    c.minPolarAngle ≤ getPolarAngle ((applyInput i c).1) ∧
      getPolarAngle ((applyInput i c).1) ≤ c.maxPolarAngle := by
  rcases applyInput_shape i c with hc | ⟨c', hcore, heq⟩
  · obtain ⟨_, _, hs, _⟩ := core_fields _ _ hc
    unfold getPolarAngle at h4 h5 ⊢
    rw [hs]
    exact ⟨h4, h5⟩
  · obtain ⟨_, _, _, _, _, hmin, hmax⟩ := core_fields _ _ hcore
    rw [heq]
    have := update_phi_bounds c' (by rw [hmin]; exact h1) (by rw [hmin, hmax]; exact h2)
      (by rw [hmax]; exact h3)
    rwa [hmin, hmax] at this

/-- Along any input sequence the distance configuration is constant and the
distance invariant is preserved. -/
lemma runInputs_dist (l : List Input) (c : Controller)
    (h0 : 0 ≤ c.minDistance) (h1 : c.minDistance ≤ c.maxDistance)
    (h4 : c.minDistance ≤ getDistance c) (h5 : getDistance c ≤ c.maxDistance) :
    c.minDistance ≤ getDistance (runInputs l c) ∧
      getDistance (runInputs l c) ≤ c.maxDistance := by
  induction l generalizing c with
  | nil => exact ⟨h4, h5⟩
  | cons i tl ih =>
      obtain ⟨e1, e2, _, _⟩ := applyInput_config i c
      have hd := applyInput_dist i c h0 h1 h4 h5
      have hrun : runInputs (i :: tl) c = runInputs tl ((applyInput i c).1) := rfl
      rw [hrun]
      have := ih ((applyInput i c).1) (by rw [e1]; exact h0) (by rw [e1, e2]; exact h1)
        (by rw [e1]; exact hd.1) (by rw [e2]; exact hd.2)
      rwa [e1, e2] at this

/-- Along any input sequence the polar configuration is constant and the
polar-angle invariant is preserved. -/
lemma runInputs_phi (l : List Input) (c : Controller)
    (h1 : sphericalEPS ≤ c.minPolarAngle) (h2 : c.minPolarAngle ≤ c.maxPolarAngle)
    (h3 : c.maxPolarAngle ≤ π - sphericalEPS)
    (h4 : c.minPolarAngle ≤ getPolarAngle c) (h5 : getPolarAngle c ≤ c.maxPolarAngle) :
    c.minPolarAngle ≤ getPolarAngle (runInputs l c) ∧
      getPolarAngle (runInputs l c) ≤ c.maxPolarAngle := by
  induction l generalizing c with
  | nil => exact ⟨h4, h5⟩
  | cons i tl ih =>
      obtain ⟨_, _, e3, e4⟩ := applyInput_config i c
      have hd := applyInput_phi i c h1 h2 h3 h4 h5
      have hrun : runInputs (i :: tl) c = runInputs tl ((applyInput i c).1) := rfl
      rw [hrun]
      have := ih ((applyInput i c).1) (by rw [e3]; exact h1) (by rw [e3, e4]; exact h2)
        (by rw [e4]; exact h3) (by rw [e3]; exact hd.1) (by rw [e4]; exact hd.2)
      rwa [e3, e4] at this

/-! ## Evaluation helpers for concrete states -/

lemma sqrt_eval (a b : ℝ) (hb : 0 ≤ b) (h : b * b = a) : Real.sqrt a = b := by
  rw [← h]
  exact Real.sqrt_mul_self hb

lemma normalizeQ_eval (x y z w l : ℝ) (hl : 0 < l) (h : x * x + y * y + z * z + w * w = l * l) :
    normalizeQ ⟨x, y, z, w⟩ = ⟨x / l, y / l, z / l, w / l⟩ := by
  unfold normalizeQ lenQ normSqQ
  dsimp only
  rw [sqrt_eval _ l hl.le h.symm, if_neg (ne_of_gt hl)]

lemma quatAlign_unitY : setFromUnitVectors ⟨0, 1, 0⟩ ⟨0, 1, 0⟩ = ⟨0, 0, 0, 1⟩ := by
  have h2 : ¬ (dot3 ⟨0, 1, 0⟩ ⟨0, 1, 0⟩ + 1 < numberEpsilon) := by
    simp only [dot3, numberEpsilon]
    norm_num
  simp only [setFromUnitVectors]
  rw [if_neg h2]
  have hv : (⟨(⟨0, 1, 0⟩ : Vec3).y * (⟨0, 1, 0⟩ : Vec3).z - (⟨0, 1, 0⟩ : Vec3).z * (⟨0, 1, 0⟩ : Vec3).y,
      (⟨0, 1, 0⟩ : Vec3).z * (⟨0, 1, 0⟩ : Vec3).x - (⟨0, 1, 0⟩ : Vec3).x * (⟨0, 1, 0⟩ : Vec3).z,
      (⟨0, 1, 0⟩ : Vec3).x * (⟨0, 1, 0⟩ : Vec3).y - (⟨0, 1, 0⟩ : Vec3).y * (⟨0, 1, 0⟩ : Vec3).x,
      dot3 ⟨0, 1, 0⟩ ⟨0, 1, 0⟩ + 1⟩ : Quat) = ⟨0, 0, 0, 2⟩ := by
    simp only [dot3]
    norm_num
  rw [hv, normalizeQ_eval 0 0 0 2 2 (by norm_num) (by norm_num)]
  norm_num

lemma conjQ_id : conjQ ⟨0, 0, 0, 1⟩ = ⟨0, 0, 0, 1⟩ := by
  unfold conjQ
  norm_num

lemma applyQuaternion_id (v : Vec3) : applyQuaternion ⟨0, 0, 0, 1⟩ v = v := by
  unfold applyQuaternion
  ext <;> dsimp <;> ring

lemma atan2_posx (y x : ℝ) (hx : 0 < x) : atan2 y x = Real.arctan (y / x) := by
  unfold atan2
  rw [if_pos hx]

lemma atan2_negx_nonneg (y x : ℝ) (hx : x < 0) (hy : 0 ≤ y) :
    atan2 y x = Real.arctan (y / x) + π := by
  unfold atan2
  rw [if_neg (by linarith : ¬ 0 < x), if_pos hx, if_pos hy]

lemma setFromVector3_eval (x y z r : ℝ) (hr : 0 < r) (h : x * x + y * y + z * z = r * r) :
    setFromVector3 ⟨x, y, z⟩ = ⟨r, Real.arccos (clampR (y / r) (-1) 1), atan2 x z⟩ := by
  unfold setFromVector3
  dsimp only
  rw [sqrt_eval _ r hr.le h.symm, if_neg (ne_of_gt hr)]

lemma setFromSpherical_half (r θ : ℝ) :
    setFromSpherical ⟨r, π / 2, θ⟩ = ⟨r * Real.sin θ, 0, r * Real.cos θ⟩ := by
  unfold setFromSpherical
  dsimp only
  rw [Real.sin_pi_div_two, Real.cos_pi_div_two]
  ext <;> dsimp <;> ring

lemma clampTheta_infinite (θ : ℝ) : clampTheta ⊥ ⊤ θ = θ := by
  unfold clampTheta
  rw [if_neg]
  simp [isFiniteE]

/-! ## Concrete controller states -/

/-- A camera at `(0, 0.1, 10)` with the default `+Y` up vector. -/
def baseCam : Camera where
  position := ⟨0, 1 / 10, 10⟩
  up := ⟨0, 1, 0⟩
  quaternion := ⟨0, 0, 0, 1⟩
  fov := 60
  matrixCol0 := ⟨1, 0, 0⟩
  matrixCol1 := ⟨0, 1, 0⟩

/-- A controller around `baseCam` targeting `(0, 0.1, 0)` with the
constructor's default configuration (lines 49–75), except that the
`Infinity` defaults of `maxDistance` / `maxTargetRadius` are set at the
finite stand-in `1000`; viewport height 500. -/
def baseC : Controller where
  camera := baseCam
  target := ⟨0, 1 / 10, 0⟩
  cursor := ⟨0, 0, 0⟩
  minDistance := 0
  maxDistance := 1000
  minTargetRadius := 0
  maxTargetRadius := 1000
  minPolarAngle := 0
  maxPolarAngle := π
  minAzimuthAngle := ⊥
  maxAzimuthAngle := ⊤
  zoomSpeed := 1
  rotateSpeed := 1
  panSpeed := 1
  keyPanSpeed := 7
  enableDamping := false
  state := GestureState.none
  spherical := ⟨10, π / 2, 0⟩
  sphericalDelta := ⟨0, 0, 0⟩
  scale := 1
  panOffset := ⟨0, 0, 0⟩
  rotateStart := ⟨0, 0⟩
  panStart := ⟨0, 0⟩
  dollyStart := ⟨0, 0⟩
  pointers := []
  pointerPositions := fun _ => none
  controlActive := false
  clientHeight := 500

/-! Evaluation of the individual `update` steps on states sharing the
`baseC` geometry. -/

lemma updSphRaw_pos10 (c : Controller) (hup : c.camera.up = ⟨0, 1, 0⟩)
    (hpos : c.camera.position = ⟨0, 1 / 10, 10⟩) (htgt : c.target = ⟨0, 1 / 10, 0⟩) :
    updSphRaw c = ⟨10, π / 2, 0⟩ := by
  unfold updSphRaw updQuatAlign
  rw [hup, hpos, htgt, quatAlign_unitY, applyQuaternion_id]
  have hsub : sub3 ⟨0, 1 / 10, 10⟩ ⟨0, 1 / 10, 0⟩ = ⟨0, 0, 10⟩ := by
    unfold sub3; norm_num
  rw [hsub, setFromVector3_eval 0 0 10 10 (by norm_num) (by norm_num)]
  have hc : clampR ((0 : ℝ) / 10) (-1) 1 = 0 := by unfold clampR; norm_num
  rw [hc, Real.arccos_zero, atan2_posx 0 10 (by norm_num),
    show (0 : ℝ) / 10 = 0 by norm_num, Real.arctan_zero]

lemma updSphRaw_neg10 (c : Controller) (hup : c.camera.up = ⟨0, 1, 0⟩)
    (hpos : c.camera.position = ⟨0, 1 / 10, -10⟩) (htgt : c.target = ⟨0, 1 / 10, 0⟩) :
    updSphRaw c = ⟨10, π / 2, π⟩ := by
  unfold updSphRaw updQuatAlign
  rw [hup, hpos, htgt, quatAlign_unitY, applyQuaternion_id]
  have hsub : sub3 ⟨0, 1 / 10, -10⟩ ⟨0, 1 / 10, 0⟩ = ⟨0, 0, -10⟩ := by
    unfold sub3; norm_num
  rw [hsub, setFromVector3_eval 0 0 (-10) 10 (by norm_num) (by norm_num)]
  have hc : clampR ((0 : ℝ) / 10) (-1) 1 = 0 := by unfold clampR; norm_num
  rw [hc, Real.arccos_zero, atan2_negx_nonneg 0 (-10) (by norm_num) le_rfl,
    show (0 : ℝ) / (-10) = 0 by norm_num, Real.arctan_zero, zero_add]

lemma updPhi_default (c : Controller) (hmin : c.minPolarAngle = 0)
    (hmax : c.maxPolarAngle = π) (hraw : (updSphRaw c).phi = π / 2)
    (hdel : c.sphericalDelta.phi = 0) : updPhi c = π / 2 := by
  unfold updPhi
  rw [hmin, hmax, hraw, hdel, add_zero]
  have hπ := Real.pi_gt_three
  rw [min_eq_right (by linarith), max_eq_right (by linarith)]
  unfold makeSafe sphericalEPS
  rw [min_eq_right (by linarith), max_eq_right (by linarith)]

lemma updTarget_eval (c : Controller) (htgt : c.target = ⟨0, 1 / 10, 0⟩)
    (hpo : c.panOffset = ⟨0, 0, 0⟩) (hcur : c.cursor = ⟨0, 0, 0⟩)
    (hminT : c.minTargetRadius = 0) (hmaxT : c.maxTargetRadius = 1000) :
    updTarget c = ⟨0, 1 / 10, 0⟩ := by
  unfold updTarget updTargetPrelim
  rw [htgt, hpo, hcur, hminT, hmaxT]
  have h1 : add3 ⟨0, 1 / 10, 0⟩ ⟨0, 0, 0⟩ = ⟨0, 1 / 10, 0⟩ := by unfold add3; norm_num
  have h2 : sub3 ⟨0, 1 / 10, 0⟩ ⟨0, 0, 0⟩ = ⟨0, 1 / 10, 0⟩ := by unfold sub3; norm_num
  have h3 : clampLength 0 1000 ⟨0, 1 / 10, 0⟩ = ⟨0, 1 / 10, 0⟩ := by
    unfold clampLength len3 normSq3
    dsimp only
    rw [sqrt_eval _ (1 / 10) (by norm_num) (by norm_num),
      if_neg (by norm_num : ¬ ((1 : ℝ) / 10) = 0),
      min_eq_right (by norm_num : (1 : ℝ) / 10 ≤ 1000),
      max_eq_right (by norm_num : (0 : ℝ) ≤ 1 / 10)]
    unfold smul3
    norm_num
  rw [h1, h2, h3, h1]
  unfold MIN_TARGET_HEIGHT
  norm_num

lemma updRadius_base (c : Controller) (hraw : (updSphRaw c).radius = 10)
    (hsc : c.scale = 1) (hmin : c.minDistance = 0) (hmax : c.maxDistance = 1000) :
    updRadius c = 10 := by
  unfold updRadius clampDistance
  rw [hraw, hsc, hmin, hmax, mul_one,
    min_eq_right (by norm_num : (10 : ℝ) ≤ 1000),
    max_eq_right (by norm_num : (0 : ℝ) ≤ 10)]

/-- The concrete state for the double-`update` claim: `baseC` with the
camera orientation `update` itself would assign, so that one `update` call
reproduces the state exactly. -/
def c1state : Controller :=
  { baseC with camera :=
      { baseCam with quaternion := lookAtQuat ⟨0, 1 / 10, 10⟩ ⟨0, 1 / 10, 0⟩ ⟨0, 1, 0⟩ } }

lemma updSpherical_c1state : updSpherical c1state = ⟨10, π / 2, 0⟩ := by
  have hraw : updSphRaw c1state = ⟨10, π / 2, 0⟩ := updSphRaw_pos10 _ rfl rfl rfl
  unfold updSpherical updTheta
  rw [updRadius_base _ (by rw [hraw]) rfl rfl rfl,
    updPhi_default _ rfl rfl (by rw [hraw]) rfl, hraw]
  dsimp only
  rw [show c1state.sphericalDelta.theta = 0 from rfl, add_zero,
    show c1state.minAzimuthAngle = ⊥ from rfl,
    show c1state.maxAzimuthAngle = ⊤ from rfl, clampTheta_infinite]

lemma updTarget_c1state : updTarget c1state = ⟨0, 1 / 10, 0⟩ :=
  updTarget_eval _ rfl rfl rfl rfl rfl

lemma updPosition_c1state : updPosition c1state = ⟨0, 1 / 10, 10⟩ := by
  unfold updPosition updOffset1
  rw [updSpherical_c1state, updTarget_c1state]
  have hq : updQuatAlign c1state = ⟨0, 0, 0, 1⟩ := by
    unfold updQuatAlign
    rw [show c1state.camera.up = ⟨0, 1, 0⟩ from rfl, quatAlign_unitY]
  rw [hq, conjQ_id, setFromSpherical_half, Real.sin_zero, Real.cos_zero,
    applyQuaternion_id]
  unfold add3
  norm_num

/-- One `update` on `c1state` reproduces `c1state` exactly and dispatches a
`'change'` notification (the freshly-zeroed `lastPosition` comparison at
line 193 is satisfied by any camera this far from the world origin). -/
lemma update_c1state : update c1state = (c1state, [Notif.change]) := by
  have hch : updChanged c1state := by
    refine Or.inr (Or.inl ?_)
    rw [updPosition_c1state]
    unfold distSq3 normSq3 sub3 EPS
    norm_num
  unfold update
  rw [if_pos hch]
  rw [updPosition_c1state, updTarget_c1state, updSpherical_c1state]
  rfl

/-! ## The claims -/

/-- Claim C1.  The claim states that a second `update()` with no pending
input dispatches no further `'change'` notification; the code dispatches
one on every call, because `lastPosition` / `lastQuaternion` /
`lastTargetPosition` are freshly zeroed locals of `update` (lines 124–126),
so the change test compares the camera against the world origin instead of
against the pose of the previous call.  Evaluated at a camera at
`(0, 0.1, 10)` orbiting the target `(0, 0.1, 0)` with no pending deltas:
both the first and the second consecutive `update()` dispatch `'change'`. -/
theorem update_second_call_still_notifies :
    (update ((update c1state).1)).2 = [Notif.change] ∧
      (update c1state).2 = [Notif.change] := by
  have h1 : (update c1state).1 = c1state := by rw [update_c1state]
  rw [h1, update_c1state]
  exact ⟨rfl, rfl⟩

/-- The distance-claim counterexample configuration: `minDistance =
maxDistance = -1` (a configuration with `minDistance ≤ maxDistance`). -/
def c2bad : Controller := { baseC with minDistance := -1, maxDistance := -1 }

lemma wheelAccum_c2bad :
    wheelAccum c2bad 100 = dollyOut (getZoomScale c2bad 100) c2bad := by
  unfold wheelAccum
  rw [if_neg (by norm_num : ¬ (100 : ℝ) < 0), if_pos (by norm_num : (100 : ℝ) > 0)]

lemma run_c2bad :
    runInputs [Input.wheel 100 0 false] c2bad = (update (wheelAccum c2bad 100)).1 := rfl

/-- Claim C2, counterexample: with `minDistance = maxDistance = -1` (so
`minDistance ≤ maxDistance`) and one wheel gesture, `getDistance()` leaves
the configured interval: the clamped spherical radius is `-1` but the
camera ends up at Euclidean distance `1` from the target. -/
theorem distance_interval_cex :
    c2bad.minDistance ≤ c2bad.maxDistance ∧
      ¬ (getDistance (runInputs [Input.wheel 100 0 false] c2bad) ≤ c2bad.maxDistance) := by
  constructor
  · exact le_rfl
  · rw [run_c2bad, wheelAccum_c2bad, update_getDistance]
    have hraw : updSphRaw (dollyOut (getZoomScale c2bad 100) c2bad) = ⟨10, π / 2, 0⟩ :=
      updSphRaw_pos10 _ rfl rfl rfl
    have hsc : (dollyOut (getZoomScale c2bad 100) c2bad).scale =
        1 / getZoomScale c2bad 100 := rfl
    have hgz : 0 < getZoomScale c2bad 100 := by
      unfold getZoomScale
      exact Real.rpow_pos_of_pos (by norm_num) _
    have hrad : updRadius (dollyOut (getZoomScale c2bad 100) c2bad) = -1 := by
      unfold updRadius clampDistance
      rw [hraw, hsc]
      rw [show (dollyOut (getZoomScale c2bad 100) c2bad).minDistance = -1 from rfl,
        show (dollyOut (getZoomScale c2bad 100) c2bad).maxDistance = -1 from rfl]
      dsimp only
      have h10 : (0 : ℝ) < 10 * (1 / getZoomScale c2bad 100) := by positivity
      rw [min_eq_left (by linarith), max_self]
    rw [hrad]
    rw [show c2bad.maxDistance = -1 from rfl]
    norm_num

/-- The dolly/wheel gesture inputs of claim C2: wheel events and the
pointer moves that drive an active dolly drag. -/
def DollyWheelInput : Input → Prop := fun i =>
  match i with
  | Input.wheel _ _ _ => True
  | Input.pointerMove _ _ _ _ => True
  | _ => False

/-- Claim C2, amended: for every configuration with
`0 ≤ minDistance ≤ maxDistance`, after any finite sequence of dolly and
wheel gesture inputs (each handler ends in `update()`), `getDistance()`
lies in the closed interval `[minDistance, maxDistance]`. -/
theorem distance_stays_clamped (c : Controller) (l : List Input)
    (h0 : 0 ≤ c.minDistance) (h1 : c.minDistance ≤ c.maxDistance)
    (hl : ∀ i ∈ l, DollyWheelInput i) :
    c.minDistance ≤ getDistance (runInputs l ((update c).1)) ∧
      getDistance (runInputs l ((update c).1)) ≤ c.maxDistance := by
  have h := update_dist_bounds c h0 h1
  have hc1 : ((update c).1).minDistance = c.minDistance := rfl
  have hc2 : ((update c).1).maxDistance = c.maxDistance := rfl
  have hrun := runInputs_dist l ((update c).1) (by rw [hc1]; exact h0)
    (by rw [hc1, hc2]; exact h1) (by rw [hc1]; exact h.1) (by rw [hc2]; exact h.2)
  rwa [hc1, hc2] at hrun

/-- Witness for `distance_stays_clamped`: the default configuration
(`minDistance = 0`, finite `maxDistance = 1000`) and one wheel gesture. -/
theorem distance_stays_clamped_witness :
    baseC.minDistance ≤ getDistance (runInputs [Input.wheel 100 0 false] ((update baseC).1)) ∧
      getDistance (runInputs [Input.wheel 100 0 false] ((update baseC).1)) ≤ baseC.maxDistance :=
  distance_stays_clamped baseC [Input.wheel 100 0 false]
    (le_of_eq (rfl : baseC.minDistance = 0).symm)
    (by rw [show baseC.minDistance = 0 from rfl, show baseC.maxDistance = 1000 from rfl]
        norm_num)
    (by intro i hi
        rw [List.mem_singleton] at hi
        subst hi
        exact trivial)

/-- The polar-claim counterexample configuration: the interval
`[10⁻⁸, 10⁻⁷] ⊂ (0, π)`, with a mouse rotate drag in progress. -/
def c3bad : Controller :=
  { baseC with
      minPolarAngle := 1 / 100000000
      maxPolarAngle := 1 / 10000000
      state := GestureState.rotate
      pointers := [1]
      rotateStart := ⟨100, 100⟩ }

lemma run_c3bad :
    runInputs [Input.pointerMove 1 false 102 103] c3bad =
      (update (rotateMoveAccum c3bad 102 103)).1 := rfl

lemma rotateAccum_c3bad_phi :
    (rotateMoveAccum c3bad 102 103).sphericalDelta.phi = -(3 * π / 250) := by
  rw [show (rotateMoveAccum c3bad 102 103).sphericalDelta.phi =
      0 - TWO_PI * (((103 : ℝ) - 100) * 1) / 500 from rfl]
  unfold TWO_PI
  ring

/-- Claim C3, counterexample: with `[minPolarAngle, maxPolarAngle] =
[10⁻⁸, 10⁻⁷]`, a sub-interval of `(0, π)`, one rotate gesture leaves
`getPolarAngle()` at the `makeSafe` margin `10⁻⁶`, outside the configured
interval. -/
theorem polar_interval_cex :
    (0 < c3bad.minPolarAngle ∧ c3bad.minPolarAngle ≤ c3bad.maxPolarAngle ∧
      c3bad.maxPolarAngle < π) ∧
      ¬ (getPolarAngle (runInputs [Input.pointerMove 1 false 102 103] c3bad) ≤
          c3bad.maxPolarAngle) := by
  have hπ := Real.pi_gt_three
  refine ⟨⟨?_, ?_, ?_⟩, ?_⟩
  · rw [show c3bad.minPolarAngle = 1 / 100000000 from rfl]; norm_num
  · rw [show c3bad.minPolarAngle = 1 / 100000000 from rfl,
      show c3bad.maxPolarAngle = 1 / 10000000 from rfl]
    norm_num
  · rw [show c3bad.maxPolarAngle = 1 / 10000000 from rfl]; linarith
  · rw [run_c3bad]
    have hphi : getPolarAngle ((update (rotateMoveAccum c3bad 102 103)).1) =
        updPhi (rotateMoveAccum c3bad 102 103) := rfl
    rw [hphi]
    have hraw : updSphRaw (rotateMoveAccum c3bad 102 103) = ⟨10, π / 2, 0⟩ :=
      updSphRaw_pos10 _ rfl rfl rfl
    have hval : updPhi (rotateMoveAccum c3bad 102 103) = sphericalEPS := by
      unfold updPhi
      rw [hraw, rotateAccum_c3bad_phi]
      rw [show (rotateMoveAccum c3bad 102 103).minPolarAngle = 1 / 100000000 from rfl,
        show (rotateMoveAccum c3bad 102 103).maxPolarAngle = 1 / 10000000 from rfl]
      dsimp only
      rw [min_eq_left (by nlinarith : (1 : ℝ) / 10000000 ≤ π / 2 + -(3 * π / 250)),
        max_eq_right (by norm_num : (1 : ℝ) / 100000000 ≤ 1 / 10000000)]
      unfold makeSafe sphericalEPS
      rw [min_eq_right (by nlinarith : (1 : ℝ) / 10000000 ≤ π - 1 / 1000000),
        max_eq_left (by norm_num : (1 : ℝ) / 10000000 ≤ 1 / 1000000)]
    rw [hval, show c3bad.maxPolarAngle = 1 / 10000000 from rfl]
    unfold sphericalEPS
    norm_num

/-- The rotate gesture inputs of claim C3: the pointer moves that drive an
active rotate drag. -/
def RotateInput : Input → Prop := fun i =>
  match i with
  | Input.pointerMove _ _ _ _ => True
  | _ => False

/-- Claim C3, amended: whenever the configured polar interval lies inside
the `makeSafe` margins, i.e. `[minPolarAngle, maxPolarAngle] ⊆
[10⁻⁶, π − 10⁻⁶]`, after any finite sequence of rotate gesture inputs
`getPolarAngle()` stays in the interval and is never exactly `0` or `π`. -/
theorem polar_stays_in_safe_interval (c : Controller) (l : List Input)
    (h1 : sphericalEPS ≤ c.minPolarAngle) (h2 : c.minPolarAngle ≤ c.maxPolarAngle)
    (h3 : c.maxPolarAngle ≤ π - sphericalEPS) (hl : ∀ i ∈ l, RotateInput i) :
    (c.minPolarAngle ≤ getPolarAngle (runInputs l ((update c).1)) ∧
      getPolarAngle (runInputs l ((update c).1)) ≤ c.maxPolarAngle) ∧
      getPolarAngle (runInputs l ((update c).1)) ≠ 0 ∧
      getPolarAngle (runInputs l ((update c).1)) ≠ π := by
  have h := update_phi_bounds c h1 h2 h3
  have hc1 : ((update c).1).minPolarAngle = c.minPolarAngle := rfl
  have hc2 : ((update c).1).maxPolarAngle = c.maxPolarAngle := rfl
  have hrun := runInputs_phi l ((update c).1) (by rw [hc1]; exact h1)
    (by rw [hc1, hc2]; exact h2) (by rw [hc2]; exact h3)
    (by rw [hc1]; exact h.1) (by rw [hc2]; exact h.2)
  rw [hc1, hc2] at hrun
  have hEPS : (0 : ℝ) < sphericalEPS := by unfold sphericalEPS; norm_num
  refine ⟨hrun, ?_, ?_⟩
  · have : 0 < getPolarAngle (runInputs l ((update c).1)) :=
      lt_of_lt_of_le (lt_of_lt_of_le hEPS h1) hrun.1
    exact ne_of_gt this
  · have : getPolarAngle (runInputs l ((update c).1)) < π :=
      lt_of_le_of_lt (le_trans hrun.2 h3) (by linarith)
    exact ne_of_lt this

/-- Witness for `polar_stays_in_safe_interval`: interval `[1/2, 2]` and one
rotate drag move. -/
def c3w : Controller :=
  { baseC with
      minPolarAngle := 1 / 2
      maxPolarAngle := 2
      state := GestureState.rotate
      pointers := [1]
      rotateStart := ⟨100, 100⟩ }

theorem polar_stays_in_safe_interval_witness :
    (c3w.minPolarAngle ≤
        getPolarAngle (runInputs [Input.pointerMove 1 false 102 103] ((update c3w).1)) ∧
      getPolarAngle (runInputs [Input.pointerMove 1 false 102 103] ((update c3w).1)) ≤
        c3w.maxPolarAngle) ∧
      getPolarAngle (runInputs [Input.pointerMove 1 false 102 103] ((update c3w).1)) ≠ 0 ∧
      getPolarAngle (runInputs [Input.pointerMove 1 false 102 103] ((update c3w).1)) ≠ π :=
  polar_stays_in_safe_interval c3w [Input.pointerMove 1 false 102 103]
    (by rw [show c3w.minPolarAngle = 1 / 2 from rfl]; unfold sphericalEPS; norm_num)
    (by rw [show c3w.minPolarAngle = 1 / 2 from rfl,
        show c3w.maxPolarAngle = 2 from rfl]; norm_num)
    (by rw [show c3w.maxPolarAngle = 2 from rfl]
        unfold sphericalEPS
        have := Real.pi_gt_three
        linarith)
    (by intro i hi
        rw [List.mem_singleton] at hi
        subst hi
        exact trivial)

/-- The pan gesture inputs of claim C4, relative to the controller state
they hit: a mouse move during an active mouse PAN drag, a touch move
during an active single-touch PAN gesture, or an unmodified arrow key. -/
def PanGestureInput (c : Controller) : Input → Prop := fun i =>
  match i with
  | Input.pointerMove _ false _ _ => c.state = GestureState.pan ∧ c.pointers ≠ []
  | Input.pointerMove _ true _ _ => c.state = GestureState.touchPan ∧ c.pointers ≠ []
  | Input.keyDown code sk => sk = false ∧ code ≠ KeyCode.other
  | _ => False

/-- Claim C4: after any pan gesture input (whose handler ends in
`update()`), the target's `y` coordinate is at least
`MIN_TARGET_HEIGHT = 0.1`, no matter how far downward the pan tried to
move the target. -/
theorem target_height_after_pan (c : Controller) (i : Input)
    (h : PanGestureInput c i) :
    MIN_TARGET_HEIGHT ≤ ((applyInput i c).1).target.y := by
  cases i with
  | pointerDown pid t x y button sk => exact h.elim
  | pointerUp pid => exact h.elim
  | wheel dY mode ctrl => exact h.elim
  | pointerMove pid t x y =>
      cases t with
      | false =>
          obtain ⟨hs, hp⟩ := h
          have hred : applyInput (Input.pointerMove pid false x y) c =
              if c.pointers = [] then (c, []) else onPointerMove c pid false x y := rfl
          rw [hred, if_neg hp]
          have hm : onPointerMove c pid false x y = onMouseMove c x y := rfl
          rw [hm]
          unfold onMouseMove
          rw [hs]
          exact update_target_y _
      | true =>
          obtain ⟨hs, hp⟩ := h
          have hred : applyInput (Input.pointerMove pid true x y) c =
              if c.pointers = [] then (c, []) else onPointerMove c pid true x y := rfl
          rw [hred, if_neg hp]
          have hm : onPointerMove c pid true x y = onTouchMove c pid x y := rfl
          rw [hm]
          unfold onTouchMove
          dsimp only
          rw [show (trackPointer c pid x y).state = c.state from rfl, hs]
          exact update_target_y _
  | keyDown code sk =>
      obtain ⟨hsk, hcode⟩ := h
      subst hsk
      have hred : applyInput (Input.keyDown code false) c = handleKeyDown c code false := rfl
      rw [hred]
      cases code with
      | arrowUp => exact update_target_y _
      | arrowDown => exact update_target_y _
      | arrowLeft => exact update_target_y _
      | arrowRight => exact update_target_y _
      | other => exact absurd rfl hcode

/-- Witness state for `target_height_after_pan`: an active mouse pan drag. -/
def c4w : Controller :=
  { baseC with
      state := GestureState.pan
      pointers := [7]
      panStart := ⟨100, 100⟩ }

theorem target_height_after_pan_witness :
    MIN_TARGET_HEIGHT ≤
      ((applyInput (Input.pointerMove 7 false 120 260) c4w).1).target.y :=
  target_height_after_pan c4w (Input.pointerMove 7 false 120 260)
    ⟨rfl, List.cons_ne_nil 7 []⟩

/-- The azimuth-wraparound scenario of claim C5: azimuth limits
`min = 170° = 17π/18`, `max = −170° = −17π/18` (a wrapped interval
crossing ±180°), with the camera at azimuth `θ = 180° = π`. -/
def c5state : Controller :=
  { baseC with
      camera := { baseCam with position := ⟨0, 1 / 10, -10⟩ }
      minAzimuthAngle := ((17 * π / 18 : ℝ) : EReal)
      maxAzimuthAngle := ((-(17 * π / 18) : ℝ) : EReal) }

/-- Claim C5: with the wrapped azimuth interval `[170°, −170°]`, the
configuration is not rejected — `update` runs the wraparound tie-break
`theta > (min+max)/2 ? Math.max(min, theta) : Math.min(max, theta)` — and
the incoming `θ = 180°` satisfies the tie-break's first case, so it
resolves to the min-side clamp `max(170°, 180°) = 180°`. -/
theorem azimuth_wrap_tiebreak :
    getAzimuthalAngle ((update c5state).1) =
      (if π > ((17 * π / 18) + (-(17 * π / 18))) / 2 then max (17 * π / 18) π
       else min (-(17 * π / 18)) π) ∧
      getAzimuthalAngle ((update c5state).1) = π := by
  have hπ := Real.pi_pos
  have hth : getAzimuthalAngle ((update c5state).1) = updTheta c5state := rfl
  have hraw : updSphRaw c5state = ⟨10, π / 2, π⟩ := updSphRaw_neg10 _ rfl rfl rfl
  have hmid : π > ((17 * π / 18) + (-(17 * π / 18))) / 2 := by linarith
  have hval : updTheta c5state = max (17 * π / 18) π := by
    unfold updTheta
    rw [hraw, show c5state.sphericalDelta.theta = 0 from rfl, add_zero]
    rw [show c5state.minAzimuthAngle = ((17 * π / 18 : ℝ) : EReal) from rfl,
      show c5state.maxAzimuthAngle = ((-(17 * π / 18) : ℝ) : EReal) from rfl]
    unfold clampTheta
    rw [if_pos ⟨⟨EReal.coe_ne_top _, EReal.coe_ne_bot _⟩,
      ⟨EReal.coe_ne_top _, EReal.coe_ne_bot _⟩⟩]
    rw [EReal.toReal_coe, EReal.toReal_coe]
    have hw1 : wrapAzimuth (17 * π / 18) = 17 * π / 18 := by
      unfold wrapAzimuth
      rw [if_neg (by linarith), if_neg (by push_neg; linarith)]
    have hw2 : wrapAzimuth (-(17 * π / 18)) = -(17 * π / 18) := by
      unfold wrapAzimuth
      rw [if_neg (by push_neg; linarith), if_neg (by push_neg; linarith)]
    rw [hw1, hw2]
    rw [if_neg (by push_neg; linarith : ¬ 17 * π / 18 ≤ -(17 * π / 18))]
    rw [if_pos (by linarith : π > (17 * π / 18 + -(17 * π / 18)) / 2)]
  constructor
  · rw [hth, hval, if_pos hmid]
  · rw [hth, hval, max_eq_right (by linarith)]

/-- The rotate-mapping scenario state of claim C6: an active mouse rotate
drag anchored at `(100, 100)`, `rotateSpeed = 1`, viewport height 500,
no pending deltas. -/
def c6state : Controller :=
  { baseC with
      state := GestureState.rotate
      pointers := [1]
      rotateStart := ⟨100, 100⟩ }

/-- Claim C6, counterexample: a rotate move of `dx = 50` pixels on a
500-pixel viewport with `rotateSpeed = 1` does NOT add `2π·50·1/500 = 0.2π`
to the pending azimuthal delta — `rotateLeft` subtracts the angle
(line 205), so the pending delta becomes `−0.2π`, not `+0.2π`. -/
theorem rotate_delta_sign_cex :
    ¬ ((rotateMoveAccum c6state 150 100).sphericalDelta.theta =
        c6state.sphericalDelta.theta + 2 * π * 50 * 1 / 500) := by
  rw [show (rotateMoveAccum c6state 150 100).sphericalDelta.theta =
      0 - TWO_PI * (((150 : ℝ) - 100) * 1) / 500 from rfl,
    show c6state.sphericalDelta.theta = 0 from rfl]
  unfold TWO_PI
  intro h
  have hπ := Real.pi_pos
  nlinarith [h]

/-- Claim C6, amended: a single-pointer rotate move of horizontal pixel
delta `dx` on a viewport of `clientHeight` `h` with rotate speed `r`
SUBTRACTS exactly `2π·dx·r/h` from the pending azimuthal delta (normalised
by height, not width); in particular `dx = 50`, `h = 500`, `r = 1` moves
the pending delta by exactly `0.2π` radians downward (to `−π/5`), before
any clamping. -/
theorem rotate_delta_subtracts :
    (∀ (c : Controller) (x y : ℝ),
      (rotateMoveAccum c x y).sphericalDelta.theta =
        c.sphericalDelta.theta -
          2 * π * ((x - c.rotateStart.x) * c.rotateSpeed) / c.clientHeight) ∧
      (rotateMoveAccum c6state 150 100).sphericalDelta.theta = -(π / 5) := by
  constructor
  · intro c x y
    rw [show (rotateMoveAccum c x y).sphericalDelta.theta =
        c.sphericalDelta.theta - TWO_PI * ((x - c.rotateStart.x) * c.rotateSpeed) /
          c.clientHeight from rfl]
    unfold TWO_PI
    ring
  · rw [show (rotateMoveAccum c6state 150 100).sphericalDelta.theta =
        0 - TWO_PI * (((150 : ℝ) - 100) * 1) / 500 from rfl]
    unfold TWO_PI
    ring

/-- The `deltaY` normalisation of `onMouseWheel` (lines 538–549) as one
expression: ×16 in line mode (`deltaMode = 1`), ×100 in page mode
(`deltaMode = 2`), ×10 extra for a ctrl-modified wheel while
`controlActive` is unset. -/
def preScaledDeltaY (c : Controller) (deltaY : ℝ) (deltaMode : Nat) (ctrlKey : Bool) : ℝ :=
  (match deltaMode with
   | 1 => deltaY * 16
   | 2 => deltaY * 100
   | _ => deltaY) * (if ctrlKey && !c.controlActive then 10 else 1)

lemma preScaled_sign (c : Controller) (deltaY : ℝ) (deltaMode : Nat) (ctrlKey : Bool) :
    (preScaledDeltaY c deltaY deltaMode ctrlKey < 0 ↔ deltaY < 0) ∧
      (0 < preScaledDeltaY c deltaY deltaMode ctrlKey ↔ 0 < deltaY) := by
  unfold preScaledDeltaY
  rcases deltaMode with _ | _ | _ | m <;>
    cases hb : (ctrlKey && !c.controlActive) <;>
      simp only [if_pos rfl, if_neg, Bool.false_eq_true, ite_true, ite_false] <;>
        constructor <;> constructor <;> intro h <;> nlinarith [h]

/-- `getZoomScale` in the spec's shape: `0.95^(zoomSpeed·|delta|/100)`. -/
lemma getZoomScale_formula (c : Controller) (d : ℝ) :
    getZoomScale c d = (0.95 : ℝ) ^ (c.zoomSpeed * |d| / 100) := by
  unfold getZoomScale
  rw [abs_mul, abs_of_pos (by norm_num : (0 : ℝ) < (0.01 : ℝ)),
    show (0.01 : ℝ) = 1 / 100 by norm_num]
  congr 1
  ring

lemma onMouseWheel_reduces (c : Controller) (deltaY : ℝ) (deltaMode : Nat)
    (ctrlKey : Bool) (h : c.state = GestureState.none) :
    onMouseWheel c deltaY deltaMode ctrlKey =
      ((update (wheelAccum c (preScaledDeltaY c deltaY deltaMode ctrlKey))).1,
       Notif.start ::
         ((update (wheelAccum c (preScaledDeltaY c deltaY deltaMode ctrlKey))).2 ++
           [Notif.stop])) := by
  unfold onMouseWheel
  rw [if_neg (not_ne_iff.mpr h)]
  unfold preScaledDeltaY
  rcases deltaMode with _ | _ | _ | m <;>
    cases hb : (ctrlKey && !c.controlActive) <;>
      simp only [Bool.false_eq_true, eq_self_iff_true, if_true, if_false, mul_one] <;>
        rfl

/-- Claim C7: a wheel event is acted on only in state `NONE`; when acted
on it dispatches `'start'`, pre-scales `deltaY` (×16 line mode, ×100 page
mode, ×10 extra for a ctrl-modified wheel), applies the dolly with the
zoom-scale factor `0.95^(zoomSpeed·|normalizedDelta|/100)` in the
direction given by the sign of `deltaY`, runs `update`, and dispatches
`'end'`. -/
theorem wheel_gate_and_zoom_scale (c : Controller) (deltaY : ℝ) (deltaMode : Nat)
    (ctrlKey : Bool) :
    (c.state ≠ GestureState.none →
      applyInput (Input.wheel deltaY deltaMode ctrlKey) c = (c, [])) ∧
    (c.state = GestureState.none →
      applyInput (Input.wheel deltaY deltaMode ctrlKey) c =
        ((update (wheelAccum c (preScaledDeltaY c deltaY deltaMode ctrlKey))).1,
         Notif.start ::
           ((update (wheelAccum c (preScaledDeltaY c deltaY deltaMode ctrlKey))).2 ++
             [Notif.stop])) ∧
      (wheelAccum c (preScaledDeltaY c deltaY deltaMode ctrlKey)).scale =
        (if deltaY < 0 then
          c.scale *
            (0.95 : ℝ) ^ (c.zoomSpeed * |preScaledDeltaY c deltaY deltaMode ctrlKey| / 100)
         else if 0 < deltaY then
          c.scale /
            (0.95 : ℝ) ^ (c.zoomSpeed * |preScaledDeltaY c deltaY deltaMode ctrlKey| / 100)
         else c.scale)) := by
  have hred : applyInput (Input.wheel deltaY deltaMode ctrlKey) c =
      onMouseWheel c deltaY deltaMode ctrlKey := rfl
  constructor
  · intro h
    rw [hred]
    unfold onMouseWheel
    rw [if_pos h]
  · intro h
    refine ⟨by rw [hred]; exact onMouseWheel_reduces c deltaY deltaMode ctrlKey h, ?_⟩
    obtain ⟨hneg, hpos⟩ := preScaled_sign c deltaY deltaMode ctrlKey
    unfold wheelAccum
    by_cases h1 : deltaY < 0
    · rw [if_pos (hneg.mpr h1), if_pos h1]
      show c.scale * getZoomScale c (preScaledDeltaY c deltaY deltaMode ctrlKey) = _
      rw [getZoomScale_formula]
    · by_cases h2 : 0 < deltaY
      · rw [if_neg (fun hc => h1 (hneg.mp hc)), if_pos (hpos.mpr h2), if_neg h1,
          if_pos h2]
        show c.scale / getZoomScale c (preScaledDeltaY c deltaY deltaMode ctrlKey) = _
        rw [getZoomScale_formula]
      · rw [if_neg (fun hc => h1 (hneg.mp hc)), if_neg (fun hc => h2 (hpos.mp hc)),
          if_neg h1, if_neg h2]

/-- The two-pointer DOLLY_PAN scenario state of claim C8: pointer 1 at
`(100, 100)`, pointer 2 at `(200, 100)` (separation `100`, recorded in
`dollyStart.y` at gesture start), `zoomSpeed = 1`, pending scale `1`. -/
def c8state : Controller :=
  { baseC with
      state := GestureState.touchDollyPan
      pointers := [1, 2]
      pointerPositions := fun k =>
        if k = 1 then some ⟨100, 100⟩ else if k = 2 then some ⟨200, 100⟩ else none
      dollyStart := ⟨0, 100⟩
      panStart := ⟨150, 100⟩ }

/-- Claim C8: one `TOUCH_DOLLY_PAN` move step applies the scale factor
`(s1/s0)^zoomSpeed` exactly once to the pending scale, via `dollyOut`
(`scale := scale / factor`), where `s0 = dollyStart.y` is the previous
separation and `s1` the new separation; the pan half of the step never
touches the scale, and `dollyStart.y` becomes `s1` for the next step.  In
particular, pointer B moving from `(200, 100)` to `(250, 100)` (separation
`100 → 150`) divides the pending scale by exactly `(150/100)^zoomSpeed`
once: with `zoomSpeed = 1` the pending scale becomes `2/3`. -/
theorem touch_dolly_scale_once :
    (∀ (c : Controller) (pid : Nat) (x y : ℝ),
      (handleTouchMoveDollyPan c pid x y).scale =
        c.scale /
          ((touchSep (getSecondPointerPosition c pid) x y / c.dollyStart.y) ^ c.zoomSpeed) ∧
      (handleTouchMoveDollyPan c pid x y).dollyStart =
        ⟨0, touchSep (getSecondPointerPosition c pid) x y⟩) ∧
      (handleTouchMoveDollyPan c8state 2 250 100).scale =
        1 / ((150 / 100 : ℝ) ^ (1 : ℝ)) ∧
      (handleTouchMoveDollyPan c8state 2 250 100).scale = 2 / 3 := by
  have hgen : ∀ (c : Controller) (pid : Nat) (x y : ℝ),
      (handleTouchMoveDollyPan c pid x y).scale =
        c.scale /
          ((touchSep (getSecondPointerPosition c pid) x y / c.dollyStart.y) ^ c.zoomSpeed) :=
    fun c pid x y => rfl
  have hsep : touchSep (getSecondPointerPosition c8state 2) 250 100 = 150 := by
    rw [show getSecondPointerPosition c8state 2 = ⟨100, 100⟩ from rfl]
    unfold touchSep
    dsimp only
    rw [show ((250 : ℝ) - 100) * (250 - 100) + (100 - 100) * (100 - 100) = 150 * 150 by
      norm_num]
    exact Real.sqrt_mul_self (by norm_num)
  have hconc : (handleTouchMoveDollyPan c8state 2 250 100).scale =
      1 / ((150 / 100 : ℝ) ^ (1 : ℝ)) := by
    rw [hgen, hsep]
    rw [show c8state.scale = 1 from rfl, show c8state.dollyStart.y = 100 from rfl,
      show c8state.zoomSpeed = 1 from rfl]
  refine ⟨fun c pid x y => ⟨hgen c pid x y, rfl⟩, hconc, ?_⟩
  rw [hconc, Real.rpow_one]
  norm_num

/-- Claim C9: releasing pointer `b` of a two-pointer gesture `[a, b]`
removes it from the registry (position dropped, id spliced out), does not
end the gesture (no `'end'` notification, no duplicate registry entries),
and re-derives the single-touch gesture state (`TOUCH_ROTATE`, since
`TOUCHES.ONE = ROTATE`) from the remaining pointer's last known position,
which becomes the new rotate anchor; releasing the last pointer then
empties the registry, dispatches `'end'` and resets the state to `NONE`. -/
theorem pointer_up_transitions (c : Controller) (a b : Nat) (pa : Vec2)
    (hptr : c.pointers = [a, b]) (hab : a ≠ b)
    (hpa : c.pointerPositions a = some pa) :
    ((applyInput (Input.pointerUp b) c).1.pointers = [a] ∧
      (applyInput (Input.pointerUp b) c).1.pointerPositions b = none ∧
      (applyInput (Input.pointerUp b) c).1.pointerPositions a = some pa ∧
      (applyInput (Input.pointerUp b) c).1.state = GestureState.touchRotate ∧
      (applyInput (Input.pointerUp b) c).1.rotateStart = pa ∧
      (applyInput (Input.pointerUp b) c).2 = [Notif.start]) ∧
      (applyInput (Input.pointerUp a) (applyInput (Input.pointerUp b) c).1).1.pointers = [] ∧
      (applyInput (Input.pointerUp a) (applyInput (Input.pointerUp b) c).1).1.state =
        GestureState.none ∧
      (applyInput (Input.pointerUp a) (applyInput (Input.pointerUp b) c).1).2 =
        [Notif.stop] := by
  have hbeq : (a == b) = false := beq_eq_false_iff_ne.mpr hab
  have hE : (removePointer c b).pointers = [a] := by
    show c.pointers.erase b = [a]
    rw [hptr]
    simp [List.erase_cons, hbeq]
  have hE2 : (trackPointer (removePointer c b) a pa.x pa.y).pointers = [a] := hE
  have hlen : (trackPointer (removePointer c b) a pa.x pa.y).pointers.length = 1 := by
    rw [hE2]
    rfl
  have hhr : handleTouchStartRotate (trackPointer (removePointer c b) a pa.x pa.y)
      a pa.x pa.y =
      { trackPointer (removePointer c b) a pa.x pa.y with rotateStart := ⟨pa.x, pa.y⟩ } := by
    unfold handleTouchStartRotate
    rw [if_pos hlen]
  have hts : onTouchStart (removePointer c b) a pa.x pa.y =
      ({ trackPointer (removePointer c b) a pa.x pa.y with
          rotateStart := ⟨pa.x, pa.y⟩, state := GestureState.touchRotate },
       [Notif.start]) := by
    unfold onTouchStart
    dsimp only [TOUCHES_ONE]
    rw [hE2, hhr]
    dsimp only
    rw [hE2]
    rfl
  have hposa : (removePointer c b).pointerPositions a = some pa := by
    show (if a = b then none else c.pointerPositions a) = some pa
    rw [if_neg hab, hpa]
  have hup : onPointerUp c b = onTouchStart (removePointer c b) a pa.x pa.y := by
    unfold onPointerUp
    dsimp only
    rw [hE]
    simp only [List.headD_cons]
    rw [hposa]
    rfl
  have hmain : applyInput (Input.pointerUp b) c =
      ({ trackPointer (removePointer c b) a pa.x pa.y with
          rotateStart := ⟨pa.x, pa.y⟩, state := GestureState.touchRotate },
       [Notif.start]) := by
    rw [show applyInput (Input.pointerUp b) c = onPointerUp c b from rfl, hup, hts]
  have hE3 : (removePointer (applyInput (Input.pointerUp b) c).1 a).pointers = [] := by
    rw [hmain]
    show ((removePointer c b).pointers).erase a = []
    rw [hE]
    simp [List.erase_cons]
  have hup2 : onPointerUp (applyInput (Input.pointerUp b) c).1 a =
      ({ removePointer (applyInput (Input.pointerUp b) c).1 a with
          state := GestureState.none }, [Notif.stop]) := by
    unfold onPointerUp
    dsimp only
    rw [hE3]
    rfl
  have hred2 : applyInput (Input.pointerUp a) (applyInput (Input.pointerUp b) c).1 =
      onPointerUp (applyInput (Input.pointerUp b) c).1 a := rfl
  refine ⟨⟨?_, ?_, ?_, ?_, ?_, ?_⟩, ?_, ?_, ?_⟩
  · rw [hmain]; exact hE2
  · rw [hmain]
    show (if b = a then some (⟨pa.x, pa.y⟩ : Vec2)
        else (if b = b then none else c.pointerPositions b)) = none
    rw [if_neg (Ne.symm hab), if_pos rfl]
  · rw [hmain]
    show (if a = a then some (⟨pa.x, pa.y⟩ : Vec2)
        else (if a = b then none else c.pointerPositions a)) = some pa
    rw [if_pos rfl]
  · rw [hmain]
  · rw [hmain]
  · rw [hmain]
  · rw [hred2, hup2]; exact hE3
  · rw [hred2, hup2]
  · rw [hred2, hup2]

/-- Witness state for `pointer_up_transitions`: a two-pointer DOLLY_PAN
gesture with pointers `1` at `(100, 100)` and `2` at `(200, 100)`. -/
def c9state : Controller :=
  { baseC with
      state := GestureState.touchDollyPan
      pointers := [1, 2]
      pointerPositions := fun k =>
        if k = 1 then some ⟨100, 100⟩ else if k = 2 then some ⟨200, 100⟩ else none }

theorem pointer_up_transitions_witness :
    ((applyInput (Input.pointerUp 2) c9state).1.pointers = [1] ∧
      (applyInput (Input.pointerUp 2) c9state).1.pointerPositions 2 = none ∧
      (applyInput (Input.pointerUp 2) c9state).1.pointerPositions 1 =
        some (⟨100, 100⟩ : Vec2) ∧
      (applyInput (Input.pointerUp 2) c9state).1.state = GestureState.touchRotate ∧
      (applyInput (Input.pointerUp 2) c9state).1.rotateStart = (⟨100, 100⟩ : Vec2) ∧
      (applyInput (Input.pointerUp 2) c9state).2 = [Notif.start]) ∧
      (applyInput (Input.pointerUp 1)
        (applyInput (Input.pointerUp 2) c9state).1).1.pointers = [] ∧
      (applyInput (Input.pointerUp 1)
        (applyInput (Input.pointerUp 2) c9state).1).1.state = GestureState.none ∧
      (applyInput (Input.pointerUp 1)
        (applyInput (Input.pointerUp 2) c9state).1).2 = [Notif.stop] :=
  pointer_up_transitions c9state 1 2 ⟨100, 100⟩ rfl (by decide) rfl

/-! ## Non-interference of the `enableDamping` flag (claim C10)

`enableDamping` is a field the host application writes on the controller
instance; no handler of `src/OrbitControls.js` reads it.  The lemmas below
push a flag flip through every handler. -/

/-- Overwrite the `enableDamping` flag. -/
def setDamping (b : Bool) (c : Controller) : Controller := { c with enableDamping := b }

lemma dampPointers (b : Bool) (c : Controller) :
    (setDamping b c).pointers = c.pointers := rfl

lemma dampState (b : Bool) (c : Controller) : (setDamping b c).state = c.state := rfl

lemma dampControlActive (b : Bool) (c : Controller) :
    (setDamping b c).controlActive = c.controlActive := rfl

lemma dampPointerPositions (b : Bool) (c : Controller) :
    (setDamping b c).pointerPositions = c.pointerPositions := rfl

lemma damp_updPosition (b : Bool) (c : Controller) :
    updPosition (setDamping b c) = updPosition c := rfl

lemma damp_updTarget (b : Bool) (c : Controller) :
    updTarget (setDamping b c) = updTarget c := rfl

lemma damp_updSpherical (b : Bool) (c : Controller) :
    updSpherical (setDamping b c) = updSpherical c := rfl

lemma damp_updChanged (b : Bool) (c : Controller) :
    updChanged (setDamping b c) = updChanged c := rfl

lemma damp_camera (b : Bool) (c : Controller) : (setDamping b c).camera = c.camera := rfl

lemma damp_update (b : Bool) (c : Controller) :
    update (setDamping b c) = (setDamping b (update c).1, (update c).2) := by
  unfold update
  simp only [damp_updPosition, damp_updTarget, damp_updSpherical, damp_updChanged,
    damp_camera]
  rfl

lemma damp_rotateMoveAccum (b : Bool) (c : Controller) (x y : ℝ) :
    rotateMoveAccum (setDamping b c) x y = setDamping b (rotateMoveAccum c x y) := rfl

lemma damp_panMoveAccum (b : Bool) (c : Controller) (x y : ℝ) :
    panMoveAccum (setDamping b c) x y = setDamping b (panMoveAccum c x y) := rfl

lemma damp_dollyMoveAccum (b : Bool) (c : Controller) (x y : ℝ) :
    dollyMoveAccum (setDamping b c) x y = setDamping b (dollyMoveAccum c x y) := by
  unfold dollyMoveAccum
  dsimp only
  by_cases h1 : y - c.dollyStart.y > 0
  · rw [if_pos (show y - (setDamping b c).dollyStart.y > 0 from h1), if_pos h1]
    rfl
  · rw [if_neg (show ¬ y - (setDamping b c).dollyStart.y > 0 from h1), if_neg h1]
    by_cases h2 : y - c.dollyStart.y < 0
    · rw [if_pos (show y - (setDamping b c).dollyStart.y < 0 from h2), if_pos h2]
      rfl
    · rw [if_neg (show ¬ y - (setDamping b c).dollyStart.y < 0 from h2), if_neg h2]
      rfl

lemma damp_wheelAccum (b : Bool) (c : Controller) (d : ℝ) :
    wheelAccum (setDamping b c) d = setDamping b (wheelAccum c d) := by
  unfold wheelAccum
  by_cases h1 : d < 0
  · rw [if_pos h1, if_pos h1]
    rfl
  · rw [if_neg h1, if_neg h1]
    by_cases h2 : d > 0
    · rw [if_pos h2, if_pos h2]
      rfl
    · rw [if_neg h2, if_neg h2]

lemma damp_handleMouseMoveRotate (b : Bool) (c : Controller) (x y : ℝ) :
    handleMouseMoveRotate (setDamping b c) x y =
      (setDamping b (handleMouseMoveRotate c x y).1, (handleMouseMoveRotate c x y).2) := by
  unfold handleMouseMoveRotate
  rw [damp_rotateMoveAccum, damp_update]

lemma damp_handleMouseMoveDolly (b : Bool) (c : Controller) (x y : ℝ) :
    handleMouseMoveDolly (setDamping b c) x y =
      (setDamping b (handleMouseMoveDolly c x y).1, (handleMouseMoveDolly c x y).2) := by
  unfold handleMouseMoveDolly
  rw [damp_dollyMoveAccum, damp_update]

lemma damp_handleMouseMovePan (b : Bool) (c : Controller) (x y : ℝ) :
    handleMouseMovePan (setDamping b c) x y =
      (setDamping b (handleMouseMovePan c x y).1, (handleMouseMovePan c x y).2) := by
  unfold handleMouseMovePan
  rw [damp_panMoveAccum, damp_update]

lemma damp_handleMouseWheel (b : Bool) (c : Controller) (d : ℝ) :
    handleMouseWheel (setDamping b c) d =
      (setDamping b (handleMouseWheel c d).1, (handleMouseWheel c d).2) := by
  unfold handleMouseWheel
  rw [damp_wheelAccum, damp_update]

lemma damp_handleKeyDown (b : Bool) (c : Controller) (code : KeyCode) (sk : Bool) :
    handleKeyDown (setDamping b c) code sk =
      (setDamping b (handleKeyDown c code sk).1, (handleKeyDown c code sk).2) := by
  cases code with
  | arrowUp =>
      cases sk with
      | false =>
          rw [show handleKeyDown (setDamping b c) KeyCode.arrowUp false =
              update (setDamping b (pan 0 c.keyPanSpeed c)) from rfl,
            show handleKeyDown c KeyCode.arrowUp false =
              update (pan 0 c.keyPanSpeed c) from rfl]
          exact damp_update b _
      | true =>
          rw [show handleKeyDown (setDamping b c) KeyCode.arrowUp true =
              update (setDamping b
                (rotateUp (TWO_PI * c.rotateSpeed / c.clientHeight) c)) from rfl,
            show handleKeyDown c KeyCode.arrowUp true =
              update (rotateUp (TWO_PI * c.rotateSpeed / c.clientHeight) c) from rfl]
          exact damp_update b _
  | arrowDown =>
      cases sk with
      | false =>
          rw [show handleKeyDown (setDamping b c) KeyCode.arrowDown false =
              update (setDamping b (pan 0 (-c.keyPanSpeed) c)) from rfl,
            show handleKeyDown c KeyCode.arrowDown false =
              update (pan 0 (-c.keyPanSpeed) c) from rfl]
          exact damp_update b _
      | true =>
          rw [show handleKeyDown (setDamping b c) KeyCode.arrowDown true =
              update (setDamping b
                (rotateUp (-(TWO_PI * c.rotateSpeed / c.clientHeight)) c)) from rfl,
            show handleKeyDown c KeyCode.arrowDown true =
              update (rotateUp (-(TWO_PI * c.rotateSpeed / c.clientHeight)) c) from rfl]
          exact damp_update b _
  | arrowLeft =>
      cases sk with
      | false =>
          rw [show handleKeyDown (setDamping b c) KeyCode.arrowLeft false =
              update (setDamping b (pan c.keyPanSpeed 0 c)) from rfl,
            show handleKeyDown c KeyCode.arrowLeft false =
              update (pan c.keyPanSpeed 0 c) from rfl]
          exact damp_update b _
      | true =>
          rw [show handleKeyDown (setDamping b c) KeyCode.arrowLeft true =
              update (setDamping b
                (rotateLeft (TWO_PI * c.rotateSpeed / c.clientHeight) c)) from rfl,
            show handleKeyDown c KeyCode.arrowLeft true =
              update (rotateLeft (TWO_PI * c.rotateSpeed / c.clientHeight) c) from rfl]
          exact damp_update b _
  | arrowRight =>
      cases sk with
      | false =>
          rw [show handleKeyDown (setDamping b c) KeyCode.arrowRight false =
              update (setDamping b (pan (-c.keyPanSpeed) 0 c)) from rfl,
            show handleKeyDown c KeyCode.arrowRight false =
              update (pan (-c.keyPanSpeed) 0 c) from rfl]
          exact damp_update b _
      | true =>
          rw [show handleKeyDown (setDamping b c) KeyCode.arrowRight true =
              update (setDamping b
                (rotateLeft (-(TWO_PI * c.rotateSpeed / c.clientHeight)) c)) from rfl,
            show handleKeyDown c KeyCode.arrowRight true =
              update (rotateLeft (-(TWO_PI * c.rotateSpeed / c.clientHeight)) c) from rfl]
          exact damp_update b _
  | other => rfl

lemma damp_onMouseDown (b : Bool) (c : Controller) (x y : ℝ) (button : Nat) (sk : Bool) :
    onMouseDown (setDamping b c) x y button sk =
      (setDamping b (onMouseDown c x y button sk).1, (onMouseDown c x y button sk).2) := by
  rcases button with _ | _ | _ | n <;> cases sk <;> rfl

lemma damp_onMouseMove (b : Bool) (c : Controller) (x y : ℝ) :
    onMouseMove (setDamping b c) x y =
      (setDamping b (onMouseMove c x y).1, (onMouseMove c x y).2) := by
  unfold onMouseMove
  rw [dampState]
  cases hs : c.state with
  | rotate => exact damp_handleMouseMoveRotate b c x y
  | dolly => exact damp_handleMouseMoveDolly b c x y
  | pan => exact damp_handleMouseMovePan b c x y
  | none => rfl
  | touchRotate => rfl
  | touchPan => rfl
  | touchDollyPan => rfl
  | touchDollyRotate => rfl

lemma damp_trackPointer (b : Bool) (c : Controller) (pid : Nat) (x y : ℝ) :
    trackPointer (setDamping b c) pid x y = setDamping b (trackPointer c pid x y) := rfl

lemma damp_addPointer (b : Bool) (c : Controller) (pid : Nat) :
    addPointer (setDamping b c) pid = setDamping b (addPointer c pid) := rfl

lemma damp_removePointer (b : Bool) (c : Controller) (pid : Nat) :
    removePointer (setDamping b c) pid = setDamping b (removePointer c pid) := rfl

lemma damp_handleTouchStartRotate (b : Bool) (c : Controller) (pid : Nat) (x y : ℝ) :
    handleTouchStartRotate (setDamping b c) pid x y =
      setDamping b (handleTouchStartRotate c pid x y) := by
  unfold handleTouchStartRotate
  by_cases h : c.pointers.length = 1
  · rw [if_pos (show (setDamping b c).pointers.length = 1 from h), if_pos h]
    rfl
  · rw [if_neg (show ¬ (setDamping b c).pointers.length = 1 from h), if_neg h]
    rfl

lemma damp_handleTouchStartPan (b : Bool) (c : Controller) (pid : Nat) (x y : ℝ) :
    handleTouchStartPan (setDamping b c) pid x y =
      setDamping b (handleTouchStartPan c pid x y) := by
  unfold handleTouchStartPan
  by_cases h : c.pointers.length = 1
  · rw [if_pos (show (setDamping b c).pointers.length = 1 from h), if_pos h]
    rfl
  · rw [if_neg (show ¬ (setDamping b c).pointers.length = 1 from h), if_neg h]
    rfl

lemma damp_handleTouchStartDolly (b : Bool) (c : Controller) (pid : Nat) (x y : ℝ) :
    handleTouchStartDolly (setDamping b c) pid x y =
      setDamping b (handleTouchStartDolly c pid x y) := rfl

lemma damp_handleTouchStartDollyPan (b : Bool) (c : Controller) (pid : Nat) (x y : ℝ) :
    handleTouchStartDollyPan (setDamping b c) pid x y =
      setDamping b (handleTouchStartDollyPan c pid x y) := by
  unfold handleTouchStartDollyPan
  rw [damp_handleTouchStartDolly, damp_handleTouchStartPan]

lemma damp_handleTouchStartDollyRotate (b : Bool) (c : Controller) (pid : Nat) (x y : ℝ) :
    handleTouchStartDollyRotate (setDamping b c) pid x y =
      setDamping b (handleTouchStartDollyRotate c pid x y) := by
  unfold handleTouchStartDollyRotate
  rw [damp_handleTouchStartDolly, damp_handleTouchStartRotate]

lemma damp_onTouchStart (b : Bool) (c : Controller) (pid : Nat) (x y : ℝ) :
    onTouchStart (setDamping b c) pid x y =
      (setDamping b (onTouchStart c pid x y).1, (onTouchStart c pid x y).2) := by
  unfold onTouchStart
  dsimp only [TOUCHES_ONE, TOUCHES_TWO]
  rw [damp_trackPointer, dampPointers]
  cases hn : (trackPointer c pid x y).pointers.length with
  | zero => rfl
  | succ n =>
      cases n with
      | zero => rw [damp_handleTouchStartRotate]; rfl
      | succ m =>
          cases m with
          | zero => rw [damp_handleTouchStartDollyPan]; rfl
          | succ k => rfl

lemma damp_handleTouchMoveRotate (b : Bool) (c : Controller) (pid : Nat) (x y : ℝ) :
    handleTouchMoveRotate (setDamping b c) pid x y =
      setDamping b (handleTouchMoveRotate c pid x y) := rfl

lemma damp_handleTouchMovePan (b : Bool) (c : Controller) (pid : Nat) (x y : ℝ) :
    handleTouchMovePan (setDamping b c) pid x y =
      setDamping b (handleTouchMovePan c pid x y) := rfl

lemma damp_handleTouchMoveDolly (b : Bool) (c : Controller) (pid : Nat) (x y : ℝ) :
    handleTouchMoveDolly (setDamping b c) pid x y =
      setDamping b (handleTouchMoveDolly c pid x y) := rfl

lemma damp_handleTouchMoveDollyPan (b : Bool) (c : Controller) (pid : Nat) (x y : ℝ) :
    handleTouchMoveDollyPan (setDamping b c) pid x y =
      setDamping b (handleTouchMoveDollyPan c pid x y) := by
  unfold handleTouchMoveDollyPan
  rw [damp_handleTouchMoveDolly, damp_handleTouchMovePan]

lemma damp_handleTouchMoveDollyRotate (b : Bool) (c : Controller) (pid : Nat) (x y : ℝ) :
    handleTouchMoveDollyRotate (setDamping b c) pid x y =
      setDamping b (handleTouchMoveDollyRotate c pid x y) := by
  unfold handleTouchMoveDollyRotate
  rw [damp_handleTouchMoveDolly, damp_handleTouchMoveRotate]

lemma damp_onTouchMove (b : Bool) (c : Controller) (pid : Nat) (x y : ℝ) :
    onTouchMove (setDamping b c) pid x y =
      (setDamping b (onTouchMove c pid x y).1, (onTouchMove c pid x y).2) := by
  unfold onTouchMove
  dsimp only
  rw [damp_trackPointer, dampState]
  cases hs : (trackPointer c pid x y).state with
  | touchRotate => rw [damp_handleTouchMoveRotate, damp_update]
  | touchPan => rw [damp_handleTouchMovePan, damp_update]
  | touchDollyPan => rw [damp_handleTouchMoveDollyPan, damp_update]
  | touchDollyRotate => rw [damp_handleTouchMoveDollyRotate, damp_update]
  | none => rfl
  | rotate => rfl
  | dolly => rfl
  | pan => rfl

lemma damp_onPointerDown (b : Bool) (c : Controller) (pid : Nat) (t : Bool) (x y : ℝ)
    (button : Nat) (sk : Bool) :
    onPointerDown (setDamping b c) pid t x y button sk =
      (setDamping b (onPointerDown c pid t x y button sk).1,
       (onPointerDown c pid t x y button sk).2) := by
  unfold onPointerDown
  by_cases h : isTrackingPointer c pid
  · rw [if_pos (show isTrackingPointer (setDamping b c) pid from h), if_pos h]
  · rw [if_neg (show ¬ isTrackingPointer (setDamping b c) pid from h), if_neg h]
    cases t with
    | true =>
        rw [show (if (true : Bool) then onTouchStart (addPointer (setDamping b c) pid) pid x y
            else onMouseDown (addPointer (setDamping b c) pid) x y button sk) =
            onTouchStart (addPointer (setDamping b c) pid) pid x y from rfl,
          show (if (true : Bool) then onTouchStart (addPointer c pid) pid x y
            else onMouseDown (addPointer c pid) x y button sk) =
            onTouchStart (addPointer c pid) pid x y from rfl,
          damp_addPointer, damp_onTouchStart]
    | false =>
        rw [show (if (false : Bool) then onTouchStart (addPointer (setDamping b c) pid) pid x y
            else onMouseDown (addPointer (setDamping b c) pid) x y button sk) =
            onMouseDown (addPointer (setDamping b c) pid) x y button sk from rfl,
          show (if (false : Bool) then onTouchStart (addPointer c pid) pid x y
            else onMouseDown (addPointer c pid) x y button sk) =
            onMouseDown (addPointer c pid) x y button sk from rfl,
          damp_addPointer, damp_onMouseDown]

lemma damp_onPointerUp (b : Bool) (c : Controller) (pid : Nat) :
    onPointerUp (setDamping b c) pid =
      (setDamping b (onPointerUp c pid).1, (onPointerUp c pid).2) := by
  unfold onPointerUp
  dsimp only
  rw [damp_removePointer, dampPointers, dampPointerPositions]
  cases hn : (removePointer c pid).pointers.length with
  | zero => rfl
  | succ n =>
      cases n with
      | zero => rw [damp_onTouchStart]
      | succ m => rfl

lemma damp_onMouseWheel (b : Bool) (c : Controller) (d : ℝ) (mode : Nat) (ctrl : Bool) :
    onMouseWheel (setDamping b c) d mode ctrl =
      (setDamping b (onMouseWheel c d mode ctrl).1, (onMouseWheel c d mode ctrl).2) := by
  unfold onMouseWheel
  rw [dampState, dampControlActive]
  by_cases h : c.state ≠ GestureState.none
  · rw [if_pos h, if_pos h]
  · rw [if_neg h, if_neg h]
    dsimp only
    rw [damp_handleMouseWheel]

/-- Claim C10: every public operation (every raw input through
`applyInput`, and `update` itself) produces the same camera pose, target,
spherical state, accessor values and notifications whether or not
`enableDamping` is set: flipping the flag commutes with every operation
and changes nothing but the flag itself, which no code path reads. -/
theorem enableDamping_noninterference (i : Input) (c : Controller) (b : Bool) :
    applyInput i (setDamping b c) =
      (setDamping b (applyInput i c).1, (applyInput i c).2) ∧
      update (setDamping b c) = (setDamping b (update c).1, (update c).2) ∧
      getDistance (setDamping b c) = getDistance c ∧
      getPolarAngle (setDamping b c) = getPolarAngle c ∧
      getAzimuthalAngle (setDamping b c) = getAzimuthalAngle c := by
  refine ⟨?_, damp_update b c, rfl, rfl, rfl⟩
  cases i with
  | pointerDown pid t x y button sk => exact damp_onPointerDown b c pid t x y button sk
  | pointerMove pid t x y =>
      rw [show applyInput (Input.pointerMove pid t x y) (setDamping b c) =
          (if (setDamping b c).pointers = [] then (setDamping b c, [])
           else onPointerMove (setDamping b c) pid t x y) from rfl,
        show applyInput (Input.pointerMove pid t x y) c =
          (if c.pointers = [] then (c, []) else onPointerMove c pid t x y) from rfl]
      by_cases hp : c.pointers = []
      · rw [if_pos (show (setDamping b c).pointers = [] from hp), if_pos hp]
      · rw [if_neg (show ¬ (setDamping b c).pointers = [] from hp), if_neg hp]
        cases t with
        | true =>
            rw [show onPointerMove (setDamping b c) pid true x y =
                onTouchMove (setDamping b c) pid x y from rfl,
              show onPointerMove c pid true x y = onTouchMove c pid x y from rfl]
            exact damp_onTouchMove b c pid x y
        | false =>
            rw [show onPointerMove (setDamping b c) pid false x y =
                onMouseMove (setDamping b c) x y from rfl,
              show onPointerMove c pid false x y = onMouseMove c x y from rfl]
            exact damp_onMouseMove b c x y
  | pointerUp pid => exact damp_onPointerUp b c pid
  | wheel d mode ctrl => exact damp_onMouseWheel b c d mode ctrl
  | keyDown code sk => exact damp_handleKeyDown b c code sk

end

end OrbitCtl
